import Mathlib

/-!
Verification development for the SPH fluid simulation in
`src/FluidSimulation.js`.  The JavaScript code is shallowly embedded:
JS numbers are modelled as real numbers, `THREE.Vector3` as the `Vec3`
structure below, parallel per-particle arrays as lists, and every call
to `Math.random()` as one read from an oracle stream `rand : ℕ → ℝ`
consumed at an explicitly threaded index.  Mutating `THREE.Vector3`
methods (`add`, `multiplyScalar`, `normalize`, ...) are modelled by
making the mutated value explicit in the data flow of each definition;
where the source mutates a stored vector in place (for example
`this.accelerations[i].multiplyScalar(subDt)` inside `update`), the
embedding returns the mutated vector as part of the state, exactly as
the source leaves it in the array.
-/

noncomputable section

namespace FluidSim

/-- Embedding of `THREE.Vector3`: three real components. -/
structure Vec3 where
  x : ℝ
  y : ℝ
  z : ℝ

namespace Vec3

/-- The zero vector `new THREE.Vector3(0, 0, 0)`. -/
def zero : Vec3 := ⟨0, 0, 0⟩

/-- Componentwise sum, as in `Vector3.add` / `Vector3.addVectors`. -/
def add (a b : Vec3) : Vec3 := ⟨a.x + b.x, a.y + b.y, a.z + b.z⟩

/-- Componentwise difference, as in `Vector3.sub` / `Vector3.subVectors`. -/
def sub (a b : Vec3) : Vec3 := ⟨a.x - b.x, a.y - b.y, a.z - b.z⟩

/-- Scalar multiple, as in `Vector3.multiplyScalar`. -/
def smul (c : ℝ) (a : Vec3) : Vec3 := ⟨c * a.x, c * a.y, c * a.z⟩

instance : Add Vec3 := ⟨add⟩
instance : Sub Vec3 := ⟨sub⟩
instance : SMul ℝ Vec3 := ⟨smul⟩

@[simp] theorem add_def (a b : Vec3) : a + b = ⟨a.x + b.x, a.y + b.y, a.z + b.z⟩ := rfl

@[simp] theorem sub_def (a b : Vec3) : a - b = ⟨a.x - b.x, a.y - b.y, a.z - b.z⟩ := rfl

@[simp] theorem smul_def (c : ℝ) (a : Vec3) : c • a = ⟨c * a.x, c * a.y, c * a.z⟩ := rfl

@[ext] theorem ext {a b : Vec3} (hx : a.x = b.x) (hy : a.y = b.y) (hz : a.z = b.z) :
    a = b := by cases a; cases b; simp_all

/-- Dot product, as in `Vector3.dot`. -/
def dot (a b : Vec3) : ℝ := a.x * b.x + a.y * b.y + a.z * b.z

/-- Squared length, as in `Vector3.lengthSq`. -/
def lengthSq (a : Vec3) : ℝ := a.x * a.x + a.y * a.y + a.z * a.z

/-- Length, as in `Vector3.length`. -/
def length (a : Vec3) : ℝ := Real.sqrt a.lengthSq

/-- Distance between two points, as in `Vector3.distanceTo`. -/
def distanceTo (a b : Vec3) : ℝ := (a - b).length

/-- Embedding of `Vector3.normalize`, which divides by `this.length() || 1`:
a zero-length vector is divided by `1` and therefore left unchanged. -/
def normalize (a : Vec3) : Vec3 := (1 / (if a.length = 0 then 1 else a.length)) • a

/-- Embedding of `Vector3.reflect(normal)`: `v − 2 (v ⬝ n) n`.  The source
sometimes passes a non-unit `normal` here (see `handleObstacleCollisions`),
so no unit-length assumption is built in. -/
def reflect (v n : Vec3) : Vec3 := v - (2 * v.dot n) • n

theorem lengthSq_nonneg (a : Vec3) : 0 ≤ a.lengthSq := by
  have hx := mul_self_nonneg a.x
  have hy := mul_self_nonneg a.y
  have hz := mul_self_nonneg a.z
  unfold lengthSq; linarith

theorem length_nonneg (a : Vec3) : 0 ≤ a.length := Real.sqrt_nonneg _

theorem length_le_iff {a : Vec3} {M : ℝ} (hM : 0 ≤ M) :
    a.length ≤ M ↔ a.lengthSq ≤ M ^ 2 := by
  unfold length
  rw [Real.sqrt_le_iff]
  constructor
  · rintro ⟨-, h⟩; exact h
  · intro h; exact ⟨hM, h⟩

theorem length_lt_iff {a : Vec3} {M : ℝ} (hM : 0 < M) :
    a.length < M ↔ a.lengthSq < M ^ 2 := by
  unfold length
  exact Real.sqrt_lt' hM

theorem lengthSq_smul (c : ℝ) (a : Vec3) : (c • a).lengthSq = c ^ 2 * a.lengthSq := by
  simp only [smul_def, lengthSq]; ring

theorem length_smul_of_nonneg {c : ℝ} (hc : 0 ≤ c) (a : Vec3) :
    (c • a).length = c * a.length := by
  unfold length
  rw [lengthSq_smul, Real.sqrt_mul (by positivity), Real.sqrt_sq hc]

theorem sq_length (a : Vec3) : a.length ^ 2 = a.lengthSq :=
  Real.sq_sqrt a.lengthSq_nonneg

theorem length_eq_zero_iff {a : Vec3} : a.length = 0 ↔ a.lengthSq = 0 := by
  unfold length
  constructor
  · intro h
    have h1 := a.lengthSq_nonneg
    have h2 : a.lengthSq ≤ 0 := Real.sqrt_eq_zero'.mp h
    linarith
  · intro h; rw [h, Real.sqrt_zero]

theorem lengthSq_eq_zero_iff {a : Vec3} : a.lengthSq = 0 ↔ a = zero := by
  constructor
  · intro h
    have hx := mul_self_nonneg a.x
    have hy := mul_self_nonneg a.y
    have hz := mul_self_nonneg a.z
    unfold lengthSq at h
    have hx0 : a.x * a.x = 0 := by linarith
    have hy0 : a.y * a.y = 0 := by linarith
    have hz0 : a.z * a.z = 0 := by linarith
    ext
    · simpa [zero, mul_self_eq_zero] using hx0
    · simpa [zero, mul_self_eq_zero] using hy0
    · simpa [zero, mul_self_eq_zero] using hz0
  · rintro rfl; simp [lengthSq, zero]

theorem length_normalize_le_one (a : Vec3) : a.normalize.length ≤ 1 := by
  unfold normalize
  by_cases h : a.length = 0
  · rw [if_pos h]
    have : ((1 : ℝ) / 1) • a = a := by ext <;> simp
    rw [this, h]; norm_num
  · rw [if_neg h]
    have hpos : 0 < a.length := lt_of_le_of_ne a.length_nonneg (Ne.symm h)
    rw [length_smul_of_nonneg (by positivity)]
    rw [one_div, inv_mul_cancel₀ h]

theorem length_normalize_of_ne_zero {a : Vec3} (h : a.length ≠ 0) :
    a.normalize.length = 1 := by
  unfold normalize
  rw [if_neg h]
  have hpos : 0 < a.length := lt_of_le_of_ne a.length_nonneg (Ne.symm h)
  rw [length_smul_of_nonneg (by positivity), one_div, inv_mul_cancel₀ h]

theorem normalize_zero_length {a : Vec3} (h : a.length = 0) : a.normalize = a := by
  unfold normalize
  rw [if_pos h]
  ext <;> simp

end Vec3

/-- The tunable parameter object `this.params`.  All entries are JS numbers,
so every field (including `particleCount`) is a real number. -/
structure Params where
  particleCount : ℝ
  particleSize : ℝ
  gravity : ℝ
  damping : ℝ
  gridSize : ℝ
  collisionThreshold : ℝ
  smoothingLength : ℝ
  particleMass : ℝ
  restDensity : ℝ
  gasConstant : ℝ
  viscosity : ℝ
  surfaceTension : ℝ
  timeStep : ℝ
  maxVelocity : ℝ
  boundaryDamping : ℝ
  interactionRadius : ℝ
  interactionForce : ℝ
  sourceRate : ℝ
  waveAmplitude : ℝ
  waveFrequency : ℝ
  whirlpoolStrength : ℝ

/-- The defaults assigned in the constructor of `FluidSimulation`. -/
def defaultParams : Params where
  particleCount := 1000
  particleSize := 0.1
  gravity := 9.81
  damping := 0.8
  gridSize := 1
  collisionThreshold := 0.1
  smoothingLength := 0.4
  particleMass := 0.1
  restDensity := 100.0
  gasConstant := 100.0
  viscosity := 0.5
  surfaceTension := 0.2
  timeStep := 0.016
  maxVelocity := 5.0
  boundaryDamping := 0.8
  interactionRadius := 1.0
  interactionForce := 10.0
  sourceRate := 10
  waveAmplitude := 0.5
  waveFrequency := 1.0
  whirlpoolStrength := 2.0

/-- An emitter object as created by `addSource` / the scenario setups:
`{position, rate, lastSpawn}` plus the optional `velocity` some scenario
sources carry. -/
structure Source where
  position : Vec3
  rate : ℝ
  lastSpawn : ℝ
  velocity : Option Vec3

/-- A static spherical obstacle `{position, radius}` as created by
`addObstacle` (which always uses radius `0.5`). -/
structure Obstacle where
  position : Vec3
  radius : ℝ

/-- The mutable state of a `FluidSimulation` instance restricted to the
physics core: the parallel per-particle arrays, the two source pools, the
obstacle list and the active scenario name.  Rendering state (mesh,
geometry buffers) and input state (raycaster, plane, mouse) are out of
scope per the spec. -/
structure SimState where
  params : Params
  particles : List Vec3
  velocities : List Vec3
  accelerations : List Vec3
  densities : List ℝ
  pressures : List ℝ
  neighbors : List (List ℕ)
  sources : List Source
  scenarioSources : List Source
  obstacles : List Obstacle
  currentScenario : String

/-- The corners of `this.boundingBox`: `(-5,-5,-5)` to `(5,5,5)`. -/
def bbMin : ℝ := -5

/-- Upper corner coordinate of the bounding box. -/
def bbMax : ℝ := 5

/-- The Poly6 density kernel `kernels.poly6.W` from `initKernels`:
`0` for `r > h`, otherwise `315/(64 π h⁹) (h² − r²)³`.  (The closure
captures `h⁹` from the `h` current at kernel-construction time; it is
always invoked with that same `h`, so a single parameter is faithful.) -/
def poly6W (h r : ℝ) : ℝ :=
  if r > h then 0 else 315.0 / (64.0 * Real.pi * h ^ 9) * (h ^ 2 - r ^ 2) ^ 3

/-- The spatial hash key from `getHashKey`: each integer cell coordinate is
multiplied by a distinct prime and the three results are joined into a
composite key (a `|`-separated string in JS, injectively modelled as a
triple). -/
def getHashKey (c : ℤ × ℤ × ℤ) : ℤ × ℤ × ℤ :=
  (c.1 * 73856093, c.2.1 * 19349663, c.2.2 * 83492791)

/-- The cell of a position: `floor(coord / cellSize)` per axis, where the
cell size is the smoothing length. -/
def cellOf (h : ℝ) (p : Vec3) : ℤ × ℤ × ℤ :=
  (⌊p.x / h⌋, ⌊p.y / h⌋, ⌊p.z / h⌋)

/-- The bucket `spatialHash.get(key)` built by `updateSpatialHash`: the
indices (in increasing order, matching insertion order) of the particles
whose cell hashes to `key`. -/
def hashBucket (s : SimState) (key : ℤ × ℤ × ℤ) : List ℕ :=
  (List.range s.particles.length).filter
    (fun i => getHashKey (cellOf s.params.smoothingLength (s.particles.getD i Vec3.zero)) = key)

/-- The 27 cell offsets scanned by `findNeighbors`, in loop order
(`dx` outermost, then `dy`, then `dz`, each from −1 to 1). -/
def offsets27 : List (ℤ × ℤ × ℤ) :=
  [(-1,-1,-1), (-1,-1,0), (-1,-1,1), (-1,0,-1), (-1,0,0), (-1,0,1),
   (-1,1,-1), (-1,1,0), (-1,1,1), (0,-1,-1), (0,-1,0), (0,-1,1),
   (0,0,-1), (0,0,0), (0,0,1), (0,1,-1), (0,1,0), (0,1,1),
   (1,-1,-1), (1,-1,0), (1,-1,1), (1,0,-1), (1,0,0), (1,0,1),
   (1,1,-1), (1,1,0), (1,1,1)]

/-- The neighbor list built for particle `i` by `findNeighbors`: scan the
27 surrounding cells and keep `j ≠ i` with exact distance `< h`. -/
def neighborsOf (s : SimState) (i : ℕ) : List ℕ :=
  let h := s.params.smoothingLength
  let pos := s.particles.getD i Vec3.zero
  let cell := cellOf h pos
  offsets27.flatMap (fun d =>
    (hashBucket s (getHashKey (cell.1 + d.1, cell.2.1 + d.2.1, cell.2.2 + d.2.2))).filter
      (fun j => j ≠ i ∧ pos.distanceTo (s.particles.getD j Vec3.zero) < h))

/-- Embedding of `findNeighbors` (which first rebuilds the spatial hash):
replaces every entry of `this.neighbors`. -/
def findNeighbors (s : SimState) : SimState :=
  { s with neighbors := (List.range s.particles.length).map (neighborsOf s) }

/-- The density accumulated for particle `i` by `computeDensityPressure`:
self contribution `W(0,h)·mass` plus `mass·W(r,h)` per neighbor. -/
def densityOf (s : SimState) (i : ℕ) : ℝ :=
  let h := s.params.smoothingLength
  let mass := s.params.particleMass
  let pos_i := s.particles.getD i Vec3.zero
  poly6W h 0 * mass +
    ((s.neighbors.getD i []).map
      (fun j => mass * poly6W h (pos_i.distanceTo (s.particles.getD j Vec3.zero)))).sum

/-- The Tait equation of state used for `this.pressures[i]`:
`gasConstant · ((ρ / restDensity)^7 − 1)`. -/
def taitPressure (gasConstant restDensity density : ℝ) : ℝ :=
  gasConstant * ((density / restDensity) ^ 7 - 1)

/-- Embedding of `computeDensityPressure`: refills `densities` and
`pressures` from the current neighbor lists. -/
def computeDensityPressure (s : SimState) : SimState :=
  let newDensities := (List.range s.particles.length).map (densityOf s)
  { s with
    densities := newDensities
    pressures := newDensities.map (taitPressure s.params.gasConstant s.params.restDensity) }

/-- One neighbor's contribution inside the `computeForces` inner loop:
pressure force (scaled by the design constant `3.0`), viscosity force,
and — when `dist < 0.9 h` — the cohesion force.  Pairs closer than
`1e-12` are skipped (`continue`). -/
def forceContrib (s : SimState) (i : ℕ) (acc : Vec3) (j : ℕ) : Vec3 :=
  let h := s.params.smoothingLength
  let mass := s.params.particleMass
  let pos_i := s.particles.getD i Vec3.zero
  let pos_j := s.particles.getD j Vec3.zero
  let density_j := max (s.densities.getD j 0) 0.1
  let pressure_i := s.pressures.getD i 0
  let pressure_j := s.pressures.getD j 0
  let r := pos_i - pos_j
  let dist := r.length
  if dist < 1e-12 then acc
  else
    let pressureForce :=
      (-mass * (pressure_i + pressure_j) / (2 * density_j) * ((h - dist) / h) ^ 2) • r.normalize
    let acc1 := acc + (3.0 : ℝ) • pressureForce
    let velDiff := (s.velocities.getD j Vec3.zero) - (s.velocities.getD i Vec3.zero)
    let acc2 := acc1 + (s.params.viscosity * mass / density_j * (h - dist)) • velDiff
    if dist < h * 0.9 then
      acc2 + (-mass * s.params.surfaceTension * (1 - dist / h) ^ 2) • r.normalize
    else acc2

/-- Embedding of `computeForces`: every acceleration is reset to
`(0, −gravity, 0)` and then accumulates the neighbor contributions. -/
def computeForces (s : SimState) : SimState :=
  { s with
    accelerations := (List.range s.particles.length).map (fun i =>
      (s.neighbors.getD i []).foldl (forceContrib s i) ⟨0, -s.params.gravity, 0⟩) }

/-- Embedding of `addParticleWithVelocity`: push one entry onto every
per-particle array, but only while `particles.length < particleCount`;
otherwise a silent no-op. -/
def addParticleWithVelocity (position velocity : Vec3) (s : SimState) : SimState :=
  if (s.particles.length : ℝ) < s.params.particleCount then
    { s with
      particles := s.particles ++ [position]
      velocities := s.velocities ++ [velocity]
      accelerations := s.accelerations ++ [⟨0, -s.params.gravity, 0⟩]
      densities := s.densities ++ [0]
      pressures := s.pressures ++ [0]
      neighbors := s.neighbors ++ [[]] }
  else s

/-- The body of the `updateSources` loop for one source: when
`now − lastSpawn > 1000 / rate`, spawn one particle at the source position
plus a small random jitter (three `Math.random()` reads), with the
source's configured velocity or zero, and stamp `lastSpawn := now`. -/
def trySpawn (now : ℝ) (rand : ℕ → ℝ) (s : SimState) (k : ℕ) (src : Source) :
    SimState × ℕ × Source :=
  if now - src.lastSpawn > 1000 / src.rate then
    let position := src.position +
      ⟨(rand k - 0.5) * 0.1, (rand (k + 1) - 0.5) * 0.1, (rand (k + 2) - 0.5) * 0.1⟩
    let velocity := src.velocity.getD Vec3.zero
    (addParticleWithVelocity position velocity s, k + 3, { src with lastSpawn := now })
  else (s, k, src)

/-- Run `trySpawn` over a list of sources in order, returning the updated
state, random-stream index and sources (the JS loop mutates the shared
source objects in place). -/
def processSources (now : ℝ) (rand : ℕ → ℝ) :
    SimState → ℕ → List Source → SimState × ℕ × List Source
  | s, k, [] => (s, k, [])
  | s, k, src :: rest =>
    let r := trySpawn now rand s k src
    let r' := processSources now rand r.1 r.2.1 rest
    (r'.1, r'.2.1, r.2.2 :: r'.2.2)

/-- Embedding of `updateSources`: iterate over `[...sources, ...scenarioSources]`
(user pool first) at wall-clock time `now = Date.now()`; the `dt` argument
of the JS method is unused. -/
def updateSources (now : ℝ) (rand : ℕ → ℝ) (s : SimState) (k : ℕ) : SimState × ℕ :=
  let r := processSources now rand s k s.sources
  let r' := processSources now rand r.1 r.2.1 s.scenarioSources
  ({ r'.1 with sources := r.2.2, scenarioSources := r'.2.2 }, r'.2.1)

/-- Embedding of `Math.sign`. -/
def mathSign (x : ℝ) : ℝ := if x < 0 then -1 else if 0 < x then 1 else 0

/-- The velocity limiter inside `update`: if the speed exceeds
`maxVelocity`, rescale the velocity to that magnitude. -/
def clampVelocity (maxVelocity : ℝ) (v : Vec3) : Vec3 :=
  if v.length > maxVelocity then (maxVelocity / v.length) • v else v

/-- Embedding of `handleBoundaryCollisions`: per axis, clamp to the
bounding box and point the velocity back inward scaled by `damping`. -/
def handleBoundaryCollisions (damping : ℝ) (p v : Vec3) : Vec3 × Vec3 :=
  let rx : ℝ × ℝ :=
    if p.x < bbMin then (bbMin, |v.x| * damping)
    else if p.x > bbMax then (bbMax, -|v.x| * damping)
    else (p.x, v.x)
  let ry : ℝ × ℝ :=
    if p.y < bbMin then (bbMin, |v.y| * damping)
    else if p.y > bbMax then (bbMax, -|v.y| * damping)
    else (p.y, v.y)
  let rz : ℝ × ℝ :=
    if p.z < bbMin then (bbMin, |v.z| * damping)
    else if p.z > bbMax then (bbMax, -|v.z| * damping)
    else (p.z, v.z)
  (⟨rx.1, ry.1, rz.1⟩, ⟨rx.2, ry.2, rz.2⟩)

/-- Embedding of `handleGridCollision`: reflection with friction (and a
10%-probability random horizontal perturbation) on the `y = 0` plane, plus
the `planLimit = 10` clamps on `|x|` and `|z|`.  Consumes zero, one or
three `Math.random()` reads depending on the branches taken. -/
def handleGridCollision (pr : Params) (rand : ℕ → ℝ) (k : ℕ) (p v : Vec3) :
    Vec3 × Vec3 × ℕ :=
  let r1 : Vec3 × Vec3 × ℕ :=
    if |p.y| < pr.collisionThreshold ∧ v.y < 0 then
      let vy := |v.y| * pr.damping
      let vx := v.x * 0.98
      let vz := v.z * 0.98
      if rand k < 0.1 then
        (⟨p.x, 0, p.z⟩,
         ⟨vx + (rand (k + 1) - 0.5) * 0.05, vy, vz + (rand (k + 2) - 0.5) * 0.05⟩,
         k + 3)
      else (⟨p.x, 0, p.z⟩, ⟨vx, vy, vz⟩, k + 1)
    else (p, v, k)
  let p1 := r1.1
  let v1 := r1.2.1
  let rx : ℝ × ℝ :=
    if |p1.x| > 10 then (mathSign p1.x * 10, v1.x * -pr.damping) else (p1.x, v1.x)
  let rz : ℝ × ℝ :=
    if |p1.z| > 10 then (mathSign p1.z * 10, v1.z * -pr.damping) else (p1.z, v1.z)
  (⟨rx.1, p1.y, rz.1⟩, ⟨rx.2, v1.y, rz.2⟩, r1.2.2)

/-- One obstacle of the `handleObstacleCollisions` loop.  Note the source's
`normal.multiplyScalar(obstacle.radius)` mutates `normal` in place before
`velocity.clone().reflect(normal)` runs, so the reflection uses the
radius-scaled normal, and the projected position reuses the same scaled
vector. -/
def handleObstacleOne (damping : ℝ) (pv : Vec3 × Vec3) (ob : Obstacle) : Vec3 × Vec3 :=
  let toObstacle := pv.1 - ob.position
  let distance := toObstacle.length
  if distance < ob.radius then
    let scaledNormal := ob.radius • toObstacle.normalize
    let newPos := ob.position + scaledNormal
    let reflection := pv.2.reflect scaledNormal
    (newPos, damping • reflection)
  else pv

/-- Embedding of `handleObstacleCollisions`: fold over the obstacle list. -/
def handleObstacleCollisions (damping : ℝ) (obstacles : List Obstacle) (p v : Vec3) :
    Vec3 × Vec3 :=
  obstacles.foldl (handleObstacleOne damping) (p, v)

/-- One particle's traversal of the inner sub-step loop of `update`:
velocity update (note `this.accelerations[i].multiplyScalar(subDt)` mutates
the stored acceleration, which this embedding returns as the new third
component), velocity clamp, position update, then boundary, grid and
obstacle collisions in that order. -/
def substepParticle (pr : Params) (obstacles : List Obstacle) (rand : ℕ → ℝ)
    (subDt : ℝ) (k : ℕ) (t : Vec3 × Vec3 × Vec3) : (Vec3 × Vec3 × Vec3) × ℕ :=
  let a' := subDt • t.2.2
  let v1 := t.2.1 + a'
  let v2 := clampVelocity pr.maxVelocity v1
  let p1 := t.1 + subDt • v2
  let bc := handleBoundaryCollisions pr.damping p1 v2
  let gc := handleGridCollision pr rand k bc.1 bc.2
  let oc := handleObstacleCollisions pr.damping obstacles gc.1 gc.2.1
  ((oc.1, oc.2, a'), gc.2.2)

/-- One pass of the sub-step loop over the whole particle list (the JS
loop `for (let i = 0; ...)` inside `for (let step = 0; ...)`). -/
def integratePass (pr : Params) (obstacles : List Obstacle) (rand : ℕ → ℝ) (subDt : ℝ) :
    ℕ → List (Vec3 × Vec3 × Vec3) → List (Vec3 × Vec3 × Vec3) × ℕ
  | k, [] => ([], k)
  | k, t :: ts =>
    let r := substepParticle pr obstacles rand subDt k t
    let r' := integratePass pr obstacles rand subDt r.2 ts
    (r.1 :: r'.1, r'.2)

/-- The number of inner iterations of `update` (`const subSteps = 2`). -/
def subSteps : ℕ := 2

/-- Embedding of `update` (the per-frame `step`): neighbor search, density
and pressure, forces, source emission, then `subSteps` sub-stepped
integration passes with `subDt = timeStep / subSteps`.  `now` stands for
`Date.now()` as read by `updateSources`; the final geometry refresh is
rendering-only and out of scope. -/
def update (now : ℝ) (rand : ℕ → ℝ) (s : SimState) (k : ℕ) : SimState × ℕ :=
  let s1 := findNeighbors s
  let s2 := computeDensityPressure s1
  let s3 := computeForces s2
  let r4 := updateSources now rand s3 k
  let s4 := r4.1
  let subDt := s4.params.timeStep / (subSteps : ℝ)
  let triples := s4.particles.zip (s4.velocities.zip s4.accelerations)
  let pass1 := integratePass s4.params s4.obstacles rand subDt r4.2 triples
  let pass2 := integratePass s4.params s4.obstacles rand subDt pass1.2 pass1.1
  ({ s4 with
      particles := pass2.1.map (fun t => t.1)
      velocities := pass2.1.map (fun t => t.2.1)
      accelerations := pass2.1.map (fun t => t.2.2) },
   pass2.2)

/-- The 10×10×10 grid of loop indices `(x, y, z)` traversed by
`initSimulation`, in loop order (`x` outermost, `z` innermost). -/
def initCells : List (ℕ × ℕ × ℕ) :=
  (List.range 10).flatMap (fun x =>
    (List.range 10).flatMap (fun y =>
      (List.range 10).map (fun z => (x, y, z))))

/-- The position created for grid cell `(x, y, z)` in `initSimulation`:
the block position (spacing `0.2`, ten particles per axis, the block
starting at height 3) plus a small random jitter (three `Math.random()`
reads). -/
def mkInitPos (rand : ℕ → ℝ) (k : ℕ) (c : ℕ × ℕ × ℕ) : Vec3 :=
  ⟨((c.1 : ℝ) - 10 / 2) * 0.2 + (rand k - 0.5) * 0.1,
   3 + (c.2.1 : ℝ) * 0.2 + (rand (k + 1) - 0.5) * 0.1,
   ((c.2.2 : ℝ) - 10 / 2) * 0.2 + (rand (k + 2) - 0.5) * 0.1⟩

/-- The positions pushed by the `initSimulation` triple loop: each grid
cell pushes one particle while `particles.length < particleCount` (here
`cur` is the running length and `k` the random-stream index). -/
def initPositions (count : ℝ) (rand : ℕ → ℝ) : ℕ → ℕ → List (ℕ × ℕ × ℕ) → List Vec3
  | _, _, [] => []
  | k, cur, c :: rest =>
    if (cur : ℝ) < count then
      mkInitPos rand k c :: initPositions count rand (k + 3) (cur + 1) rest
    else initPositions count rand k cur rest

/-- Embedding of `initSimulation`: rebuild every per-particle array.  Each
pushed particle gets velocity `(0,0,0)`, acceleration `(0, −gravity, 0)`,
zero density and pressure and an empty neighbor list, so those arrays are
constant lists of the same length as the positions. -/
def initSimulation (rand : ℕ → ℝ) (k : ℕ) (s : SimState) : SimState × ℕ :=
  let ps := initPositions s.params.particleCount rand k 0 initCells
  ({ s with
      particles := ps
      velocities := List.replicate ps.length Vec3.zero
      accelerations := List.replicate ps.length ⟨0, -s.params.gravity, 0⟩
      densities := List.replicate ps.length 0
      pressures := List.replicate ps.length 0
      neighbors := List.replicate ps.length [] },
   k + 3 * ps.length)

/-- Embedding of `resetSimulation`: clear `particles` and `velocities`,
then `initSimulation` (which rebuilds all six arrays); the trailing
`updateGeometry` is rendering-only. -/
def resetSimulation (rand : ℕ → ℝ) (k : ℕ) (s : SimState) : SimState × ℕ :=
  initSimulation rand k { s with particles := [], velocities := [] }

/-- Embedding of `addObstacle`: push a sphere of radius `0.5` (the JS
method ignores any extra argument passed by the scenario setups). -/
def addObstacle (position : Vec3) (s : SimState) : SimState :=
  { s with obstacles := s.obstacles ++ [{ position := position, radius := 0.5 }] }

/-- Embedding of `addSource`: push a user source with rate 10. -/
def addSource (position : Vec3) (s : SimState) : SimState :=
  { s with sources := s.sources ++ [{ position := position, rate := 10, lastSpawn := 0,
                                      velocity := none }] }

/-- Embedding of `clearSources`: empty both the user pool and the
scenario pool. -/
def clearSources (s : SimState) : SimState :=
  { s with sources := [], scenarioSources := [] }

/-- Embedding of `clearObstacles`. -/
def clearObstacles (s : SimState) : SimState :=
  { s with obstacles := [] }

/-- Embedding of `setupWaterfall`: ten scenario sources along a line plus
two obstacles. -/
def setupWaterfall (s : SimState) : SimState :=
  let s1 := { s with scenarioSources := s.scenarioSources ++
    (List.range 10).map (fun i =>
      { position := ⟨-4 + (i : ℝ) * 0.8, 4, 0⟩
        rate := s.params.sourceRate
        lastSpawn := 0
        velocity := some ⟨0.5, -2, 0⟩ }) }
  addObstacle ⟨2, 1, 0⟩ (addObstacle ⟨-2, 2, 0⟩ s1)

/-- Embedding of `setupLake`: parameter overrides, re-initialised particle
block, four obstacles. -/
def setupLake (rand : ℕ → ℝ) (k : ℕ) (s : SimState) : SimState × ℕ :=
  let s1 := { s with params := { s.params with viscosity := 1.0, surfaceTension := 0.5 } }
  let r := initSimulation rand k s1
  (addObstacle ⟨0, 0, 4⟩ (addObstacle ⟨0, 0, -4⟩ (addObstacle ⟨4, 0, 0⟩
    (addObstacle ⟨-4, 0, 0⟩ r.1))), r.2)

/-- Embedding of `setupWaves`: parameter overrides and a re-initialised
block.  The `setInterval` wave generator only registers a periodic
callback; the state effect of one of its ticks is out of the claims'
scope. -/
def setupWaves (rand : ℕ → ℝ) (k : ℕ) (s : SimState) : SimState × ℕ :=
  initSimulation rand k
    { s with params := { s.params with viscosity := 0.3, surfaceTension := 0.1 } }

/-- Embedding of `setupFountain`: one central source plus eight angled
sub-sources. -/
def setupFountain (s : SimState) : SimState :=
  let center : Source :=
    { position := Vec3.zero
      rate := s.params.sourceRate * 2
      lastSpawn := 0
      velocity := some ⟨0, 4, 0⟩ }
  { s with scenarioSources := s.scenarioSources ++ [center] ++
    (List.range 8).map (fun i =>
      let angle := ((i : ℝ) / 8) * Real.pi * 2
      { position := ⟨Real.cos angle * 2, 2, Real.sin angle * 2⟩
        rate := s.params.sourceRate
        lastSpawn := 0
        velocity := some ⟨Real.cos angle * 1.5, 2, Real.sin angle * 1.5⟩ }) }

/-- Embedding of `setupRain`: twenty sources at random horizontal
positions (two `Math.random()` reads each). -/
def setupRain (rand : ℕ → ℝ) (k : ℕ) (s : SimState) : SimState × ℕ :=
  ({ s with scenarioSources := s.scenarioSources ++
      (List.range 20).map (fun i =>
        { position := ⟨(rand (k + 2 * i) - 0.5) * 8, 5, (rand (k + 2 * i + 1) - 0.5) * 8⟩
          rate := s.params.sourceRate / 2
          lastSpawn := 0
          velocity := some ⟨0, -3, 0⟩ }) },
   k + 40)

/-- Embedding of `setupWhirlpool`: parameter overrides and a
re-initialised block.  The `setInterval` vortex force is modelled by
`whirlpoolTick` below. -/
def setupWhirlpool (rand : ℕ → ℝ) (k : ℕ) (s : SimState) : SimState × ℕ :=
  initSimulation rand k
    { s with params := { s.params with viscosity := 0.2, surfaceTension := 0.1 } }

/-- Embedding of `loadScenario`: record the scenario name, clear both
source pools and the obstacles, then run the named setup (an unknown name
falls through to `resetSimulation`). -/
def loadScenario (scenario : String) (rand : ℕ → ℝ) (k : ℕ) (s : SimState) :
    SimState × ℕ :=
  let s1 := clearObstacles (clearSources { s with currentScenario := scenario })
  if scenario = "waterfall" then (setupWaterfall s1, k)
  else if scenario = "lake" then setupLake rand k s1
  else if scenario = "waves" then setupWaves rand k s1
  else if scenario = "fountain" then (setupFountain s1, k)
  else if scenario = "rain" then setupRain rand k s1
  else if scenario = "whirlpool" then setupWhirlpool rand k s1
  else resetSimulation rand k s1

/-- The velocity increment one tick of the `setupWhirlpool` interval adds
to a particle at position `p` (when its distance from the origin exceeds
0.1): the normalized horizontal tangent scaled by
`whirlpoolStrength / max(1, distance)`.  `toCenter = center − p` and
`distance = ‖toCenter‖` is the full 3-D distance the source computes. -/
def whirlpoolForce (strength : ℝ) (p : Vec3) : Vec3 :=
  let toCenter := Vec3.zero - p
  let tangent := Vec3.normalize ⟨-toCenter.z, 0, toCenter.x⟩
  (strength / max 1 toCenter.length) • tangent

/-- One particle's velocity after a tick of the whirlpool interval. -/
def whirlpoolKick (strength : ℝ) (p v : Vec3) : Vec3 :=
  if (Vec3.zero - p).length > 0.1 then v + whirlpoolForce strength p else v

/-- One tick of the whirlpool `setInterval` callback over the whole
state (it only runs while `currentScenario === 'whirlpool'`). -/
def whirlpoolTick (s : SimState) : SimState :=
  if s.currentScenario = "whirlpool" then
    { s with velocities :=
        (s.particles.zip s.velocities).map (fun t =>
          whirlpoolKick s.params.whirlpoolStrength t.1 t.2) }
  else s

/-- One particle's velocity after `applyForceToNearbyParticles(center)`:
inside the interaction radius, add an impulse toward `center` attenuated
linearly with distance.  A particle exactly at `center` hits
`normalize()` on a zero vector, which `THREE.Vector3` leaves unchanged
(`divideScalar(length || 1)`), so the impulse degenerates to zero. -/
def applyForceKick (pr : Params) (center p v : Vec3) : Vec3 :=
  let distance := center.distanceTo p
  if distance < pr.interactionRadius then
    v + (pr.interactionForce * (1 - distance / pr.interactionRadius)) •
      (center - p).normalize
  else v

/-- Embedding of `applyForceToNearbyParticles`. -/
def applyForceToNearbyParticles (center : Vec3) (s : SimState) : SimState :=
  { s with velocities :=
      (s.particles.zip s.velocities).map (fun t =>
        applyForceKick s.params center t.1 t.2) }

theorem length_mk_0y0 (y : ℝ) : (Vec3.mk 0 y 0).length = |y| := by
  unfold Vec3.length Vec3.lengthSq
  simp [Real.sqrt_mul_self_eq_abs]

theorem length_zero_vec : Vec3.zero.length = 0 := by
  unfold Vec3.zero Vec3.length Vec3.lengthSq
  simp

/-- C1: the spec claims both sub-steps of `update` add the same
`a_i · subDt` to the velocity.  In the source,
`this.velocities[i].add(this.accelerations[i].multiplyScalar(subDt))`
mutates the stored acceleration, so the second sub-step adds
`a_i · subDt²` instead.  Concretely, with gravity-only acceleration
`(0, −9.81, 0)` and `subDt = 0.008`: the first sub-step adds
`subDt • a`, the second adds `subDt² • a ≠ subDt • a`. -/
theorem c1_second_substep_adds_subDt_sq_times_accel :
    (substepParticle defaultParams [] (fun _ => 1 / 2) (defaultParams.timeStep / (subSteps : ℝ)) 0
        (⟨0, 3, 0⟩, Vec3.zero, ⟨0, -9.81, 0⟩)).1.2.1 - Vec3.zero =
      (defaultParams.timeStep / (subSteps : ℝ)) • Vec3.mk 0 (-9.81) 0 ∧
    (substepParticle defaultParams [] (fun _ => 1 / 2) (defaultParams.timeStep / (subSteps : ℝ))
          (substepParticle defaultParams [] (fun _ => 1 / 2)
            (defaultParams.timeStep / (subSteps : ℝ)) 0
            (⟨0, 3, 0⟩, Vec3.zero, ⟨0, -9.81, 0⟩)).2
          (substepParticle defaultParams [] (fun _ => 1 / 2)
            (defaultParams.timeStep / (subSteps : ℝ)) 0
            (⟨0, 3, 0⟩, Vec3.zero, ⟨0, -9.81, 0⟩)).1).1.2.1 -
        (substepParticle defaultParams [] (fun _ => 1 / 2)
          (defaultParams.timeStep / (subSteps : ℝ)) 0
          (⟨0, 3, 0⟩, Vec3.zero, ⟨0, -9.81, 0⟩)).1.2.1 =
      ((defaultParams.timeStep / (subSteps : ℝ)) * (defaultParams.timeStep / (subSteps : ℝ))) •
        Vec3.mk 0 (-9.81) 0 ∧
    ((defaultParams.timeStep / (subSteps : ℝ)) * (defaultParams.timeStep / (subSteps : ℝ))) •
        Vec3.mk 0 (-9.81) 0 ≠
      (defaultParams.timeStep / (subSteps : ℝ)) • Vec3.mk 0 (-9.81) 0 := by
  have habs : ∀ y : ℝ, y ≤ 0 → |y| = -y := fun y hy => abs_of_nonpos hy
  norm_num [substepParticle, clampVelocity, handleBoundaryCollisions, handleGridCollision,
    handleObstacleCollisions, defaultParams, subSteps, Vec3.zero, length_mk_0y0,
    mathSign, bbMin, bbMax, abs_of_nonpos, abs_of_nonneg, Vec3.ext_iff]

/-- A convenient concrete state: default parameters, empty arrays and
pools, the `default` scenario. -/
def baseState : SimState where
  params := defaultParams
  particles := []
  velocities := []
  accelerations := []
  densities := []
  pressures := []
  neighbors := []
  sources := []
  scenarioSources := []
  obstacles := []
  currentScenario := "default"

/-- A sample user-added source. -/
def userSource : Source :=
  { position := ⟨1, 0, 1⟩, rate := 10, lastSpawn := 0, velocity := none }

/-- C2 counterexample: the claim says `loadScenario` leaves the user pool
`sources` unchanged.  Loading `waterfall` on a state holding one
user-added source empties the pool (because `loadScenario` calls
`clearSources`, which clears both pools). -/
theorem c2_counterexample_user_sources_cleared :
    (loadScenario "waterfall" (fun _ => 1 / 2) 0
        { baseState with sources := [userSource] }).1.sources ≠
      ({ baseState with sources := [userSource] } : SimState).sources := by
  norm_num [loadScenario, clearSources, clearObstacles, setupWaterfall, addObstacle]

/-- C2 amended: `loadScenario` clears both pools — the user pool comes out
empty on every scenario switch (and the scenario pool is replaced by the
new scenario's sources); user sources are removed, not preserved. -/
theorem c2_load_scenario_empties_user_pool (name : String) (rand : ℕ → ℝ) (k : ℕ)
    (s : SimState) : (loadScenario name rand k s).1.sources = [] := by
  unfold loadScenario
  split_ifs <;>
    simp [setupWaterfall, setupLake, setupWaves, setupFountain, setupRain,
      setupWhirlpool, resetSimulation, initSimulation, addObstacle,
      clearSources, clearObstacles]

theorem initPositions_length (count : ℝ) (rand : ℕ → ℝ) :
    ∀ (cells : List (ℕ × ℕ × ℕ)) (k cur : ℕ),
      (initPositions count rand k cur cells).length =
        min cells.length (⌈count⌉₊ - cur) := by
  intro cells
  induction cells with
  | nil => intro k cur; simp [initPositions]
  | cons c rest ih =>
    intro k cur
    by_cases h : (cur : ℝ) < count
    · have hcur : cur < ⌈count⌉₊ := Nat.lt_ceil.mpr h
      simp only [initPositions, if_pos h, List.length_cons, ih]
      omega
    · have hcur : ¬cur < ⌈count⌉₊ := fun hc => h (Nat.lt_ceil.mp hc)
      simp only [initPositions, if_neg h, List.length_cons, ih]
      omega

set_option maxRecDepth 8000 in
theorem initCells_length : initCells.length = 1000 := by decide

/-- C3 counterexample: with `particleCount = 1001` the reset block holds
only `10 × 10 × 10 = 1000` particles, so the active count does not equal
`particleCount`. -/
theorem c3_counterexample_count_capped :
    ((resetSimulation (fun _ => 1 / 2) 0
        { baseState with
            params := { defaultParams with particleCount := 1001 } }).1.particles.length : ℝ) ≠
      ({ baseState with
          params := { defaultParams with particleCount := 1001 } } : SimState).params.particleCount := by
  have h : (resetSimulation (fun _ => 1 / 2) 0
      { baseState with
          params := { defaultParams with particleCount := 1001 } }).1.particles.length =
      min ⌈(1001 : ℝ)⌉₊ 1000 := by
    simp only [resetSimulation, initSimulation, initPositions_length, initCells_length]
    omega
  rw [h]
  norm_num

/-- C3 amended: `resetSimulation` restores the active count to
`min(⌈particleCount⌉, 1000)` — the initial block is a 10×10×10 grid, so
at most 1000 particles exist — and every velocity is the zero vector. -/
theorem c3_reset_count_and_velocities (s : SimState) (rand : ℕ → ℝ) (k : ℕ) :
    (resetSimulation rand k s).1.particles.length =
      min ⌈s.params.particleCount⌉₊ 1000 ∧
    ∀ v ∈ (resetSimulation rand k s).1.velocities, v = Vec3.zero := by
  constructor
  · simp only [resetSimulation, initSimulation, initPositions_length, initCells_length]
    omega
  · intro v hv
    simp only [resetSimulation, initSimulation] at hv
    exact (List.eq_of_mem_replicate hv)

/-- C7: every index retained in a neighbor list by `findNeighbors` is a
distinct particle at exact Euclidean distance strictly below the
smoothing length. -/
theorem c7_neighbor_list_exact_distance (s : SimState) (i j : ℕ)
    (hj : j ∈ neighborsOf s i) :
    j ≠ i ∧
      (s.particles.getD i Vec3.zero).distanceTo (s.particles.getD j Vec3.zero) <
        s.params.smoothingLength := by
  unfold neighborsOf at hj
  simp only [List.mem_flatMap, List.mem_filter, decide_eq_true_eq] at hj
  obtain ⟨d, -, -, hprop⟩ := hj
  exact hprop

theorem length_mk_x00 (x : ℝ) : (Vec3.mk x 0 0).length = |x| := by
  unfold Vec3.length Vec3.lengthSq
  simp [Real.sqrt_mul_self_eq_abs]

/-- A two-particle state at distance `0.1 < h = 0.4`, used to exhibit a
retained neighbor pair. -/
def twoParticleState : SimState :=
  { baseState with particles := [⟨0, 0, 0⟩, ⟨0.1, 0, 0⟩] }

theorem c7_witness :
    1 ∈ neighborsOf twoParticleState 0 ∧
    (1 ≠ 0 ∧
      (twoParticleState.particles.getD 0 Vec3.zero).distanceTo
          (twoParticleState.particles.getD 1 Vec3.zero) <
        twoParticleState.params.smoothingLength) := by
  have hmem : 1 ∈ neighborsOf twoParticleState 0 := by
    unfold neighborsOf
    rw [List.mem_flatMap]
    refine ⟨(0, 0, 0), by simp [offsets27], ?_⟩
    rw [List.mem_filter]
    constructor
    · unfold hashBucket
      rw [List.mem_filter]
      constructor
      · simp [twoParticleState, baseState]
      · simp only [twoParticleState, baseState, defaultParams, cellOf, getHashKey]
        norm_num
    · simp only [twoParticleState, baseState, defaultParams, Vec3.distanceTo, cellOf,
        getHashKey, List.getD]
      have habs : |(1 : ℝ) / 10| = 1 / 10 := abs_of_nonneg (by norm_num)
      norm_num [length_mk_x00, habs]
  exact ⟨hmem, c7_neighbor_list_exact_distance twoParticleState 0 1 hmem⟩

theorem poly6W_nonneg {h r : ℝ} (hh : 0 < h) (hr : 0 ≤ r) : 0 ≤ poly6W h r := by
  unfold poly6W
  split_ifs with hgt
  · exact le_rfl
  · push_neg at hgt
    have hsq : r ^ 2 ≤ h ^ 2 := pow_le_pow_left₀ hr hgt 2
    have hcube : (0 : ℝ) ≤ (h ^ 2 - r ^ 2) ^ 3 := pow_nonneg (by linarith) 3
    have hden : (0 : ℝ) < 64.0 * Real.pi * h ^ 9 :=
      mul_pos (mul_pos (by norm_num) Real.pi_pos) (pow_pos hh 9)
    exact mul_nonneg (div_nonneg (by norm_num) hden.le) hcube

theorem getD_nonneg {l : List ℝ} (h : ∀ x ∈ l, 0 ≤ x) : ∀ i : ℕ, 0 ≤ l.getD i 0 := by
  induction l with
  | nil => intro i; simp
  | cons a t ih =>
    intro i
    cases i with
    | zero => simpa using h a (by simp)
    | succ n => simpa using ih (fun x hx => h x (by simp [hx])) n

/-- C8: densities computed by `computeDensityPressure` are nonnegative
when the particle mass is nonnegative and the smoothing length positive,
and the Tait pressure is non-decreasing in the density once the density
reaches the (positive) rest density, for a nonnegative gas constant. -/
theorem c8_density_nonneg_pressure_monotone (s : SimState) (i : ℕ)
    (hm : 0 ≤ s.params.particleMass) (hh : 0 < s.params.smoothingLength) :
    0 ≤ (computeDensityPressure s).densities.getD i 0 ∧
    ∀ g ρ0 ρ1 ρ2 : ℝ, 0 ≤ g → 0 < ρ0 → ρ0 ≤ ρ1 → ρ1 ≤ ρ2 →
      taitPressure g ρ0 ρ1 ≤ taitPressure g ρ0 ρ2 := by
  constructor
  · apply getD_nonneg
    intro x hx
    simp only [computeDensityPressure, List.mem_map] at hx
    obtain ⟨j, -, rfl⟩ := hx
    simp only [densityOf]
    have hself : 0 ≤ poly6W s.params.smoothingLength 0 * s.params.particleMass :=
      mul_nonneg (poly6W_nonneg hh le_rfl) hm
    have hsum : 0 ≤ ((s.neighbors.getD j []).map (fun j' =>
        s.params.particleMass * poly6W s.params.smoothingLength
          ((s.particles.getD j Vec3.zero).distanceTo (s.particles.getD j' Vec3.zero)))).sum := by
      apply List.sum_nonneg
      intro x hx
      simp only [List.mem_map] at hx
      obtain ⟨j', -, rfl⟩ := hx
      exact mul_nonneg hm (poly6W_nonneg hh (Real.sqrt_nonneg _))
    linarith
  · intro g ρ0 ρ1 ρ2 hg hρ0 h01 h12
    unfold taitPressure
    have hd : ρ1 / ρ0 ≤ ρ2 / ρ0 := (div_le_div_iff_of_pos_right hρ0).mpr h12
    have hd0 : 0 ≤ ρ1 / ρ0 := div_nonneg (by linarith) hρ0.le
    have hpow : (ρ1 / ρ0) ^ 7 ≤ (ρ2 / ρ0) ^ 7 := pow_le_pow_left₀ hd0 hd 7
    have := mul_le_mul_of_nonneg_left (sub_le_sub_right hpow 1) hg
    linarith

theorem c8_witness :
    0 ≤ baseState.params.particleMass ∧ 0 < baseState.params.smoothingLength ∧
    (0 ≤ (computeDensityPressure baseState).densities.getD 0 0 ∧
      ∀ g ρ0 ρ1 ρ2 : ℝ, 0 ≤ g → 0 < ρ0 → ρ0 ≤ ρ1 → ρ1 ≤ ρ2 →
        taitPressure g ρ0 ρ1 ≤ taitPressure g ρ0 ρ2) :=
  ⟨by norm_num [baseState, defaultParams],
   by norm_num [baseState, defaultParams],
   c8_density_nonneg_pressure_monotone baseState 0
     (by norm_num [baseState, defaultParams]) (by norm_num [baseState, defaultParams])⟩

theorem length_smul_abs (c : ℝ) (a : Vec3) : (c • a).length = |c| * a.length := by
  unfold Vec3.length
  rw [Vec3.lengthSq_smul, Real.sqrt_mul (sq_nonneg c), Real.sqrt_sq_eq_abs]

theorem add_sub_cancel_vec (v f : Vec3) : v + f - v = f := by
  ext <;> simp

theorem smul_zero_vec (c : ℝ) : c • Vec3.zero = Vec3.zero := by
  ext <;> simp [Vec3.zero]

/-- C10: the pointer interaction force is always a well-defined, bounded
velocity impulse.  A particle exactly at the interaction center passes the
`distance < interactionRadius` test, but `normalize()` on the zero
separation vector divides by `length || 1` and returns the zero vector, so
the particle's velocity is unchanged; in general the impulse magnitude is
bounded by `|interactionForce|`, so velocities stay finite. -/
theorem c10_interaction_impulse_welldefined (pr : Params) (center p v : Vec3)
    (hR : 0 < pr.interactionRadius) :
    applyForceKick pr center center v = v ∧
    (applyForceKick pr center p v - v).length ≤ |pr.interactionForce| := by
  constructor
  · have hzero : center - center = Vec3.zero := by ext <;> simp [Vec3.zero]
    have hdist : center.distanceTo center = 0 := by
      rw [Vec3.distanceTo, hzero, length_zero_vec]
    simp only [applyForceKick]
    rw [hdist, hzero, if_pos hR,
      Vec3.normalize_zero_length (by rw [length_zero_vec]), smul_zero_vec]
    ext <;> simp [Vec3.zero]
  · simp only [applyForceKick]
    split_ifs with hin
    · rw [add_sub_cancel_vec, length_smul_abs, abs_mul]
      have hd0 : 0 ≤ center.distanceTo p := Real.sqrt_nonneg _
      have hfrac : |1 - center.distanceTo p / pr.interactionRadius| ≤ 1 := by
        rw [abs_le]
        constructor
        · have : center.distanceTo p / pr.interactionRadius < 1 :=
            (div_lt_one hR).mpr hin
          linarith
        · have : 0 ≤ center.distanceTo p / pr.interactionRadius :=
            div_nonneg hd0 hR.le
          linarith
      calc |pr.interactionForce| * |1 - center.distanceTo p / pr.interactionRadius| *
            (center - p).normalize.length
          ≤ |pr.interactionForce| * 1 * 1 := by
            apply mul_le_mul
            · exact mul_le_mul_of_nonneg_left hfrac (abs_nonneg _)
            · exact Vec3.length_normalize_le_one _
            · exact Vec3.length_nonneg _
            · positivity
        _ = |pr.interactionForce| := by ring
    · have : v - v = Vec3.zero := by ext <;> simp [Vec3.zero]
      rw [this, length_zero_vec]
      positivity

theorem c10_witness :
    0 < defaultParams.interactionRadius ∧
    (applyForceKick defaultParams Vec3.zero Vec3.zero ⟨1, 2, 3⟩ = ⟨1, 2, 3⟩ ∧
      (applyForceKick defaultParams Vec3.zero ⟨0.5, 0, 0⟩ ⟨1, 2, 3⟩ - ⟨1, 2, 3⟩).length ≤
        |defaultParams.interactionForce|) :=
  ⟨by norm_num [defaultParams],
   (c10_interaction_impulse_welldefined defaultParams Vec3.zero Vec3.zero ⟨1, 2, 3⟩
      (by norm_num [defaultParams])).1,
   (c10_interaction_impulse_welldefined defaultParams Vec3.zero ⟨0.5, 0, 0⟩ ⟨1, 2, 3⟩
      (by norm_num [defaultParams])).2⟩

theorem sqrt_eval {a b : ℝ} (hb : 0 ≤ b) (h : b ^ 2 = a) : Real.sqrt a = b := by
  rw [← h, Real.sqrt_sq hb]

/-- C9 counterexample: the claim exempts particles whose planar distance
from the origin is ≤ 0.1 from the whirlpool tick.  The source tests the
full 3-D distance instead: the particle at `(0.1, 0.24, 0)` has planar
distance exactly `0.1` (so the claim says it is unchanged) but 3-D
distance `0.26 > 0.1`, and the tick changes its velocity (to `(0,0,−2)`
from rest, with the default strength 2). -/
theorem c9_counterexample_planar_vs_3d :
    Real.sqrt ((0.1 : ℝ) ^ 2 + 0 ^ 2) ≤ 0.1 ∧
    whirlpoolKick defaultParams.whirlpoolStrength ⟨0.1, 0.24, 0⟩ Vec3.zero ≠ Vec3.zero := by
  constructor
  · rw [show ((0.1 : ℝ) ^ 2 + 0 ^ 2) = 0.1 ^ 2 by norm_num,
      Real.sqrt_sq (by norm_num)]
  · have hlen : (Vec3.zero - Vec3.mk 0.1 0.24 0).length = 0.26 := by
      have h2 : (Vec3.zero - Vec3.mk 0.1 0.24 0).lengthSq = 0.26 ^ 2 := by
        simp [Vec3.zero, Vec3.lengthSq]; norm_num
      unfold Vec3.length; rw [h2, Real.sqrt_sq (by norm_num)]
    have htan : Vec3.mk (-(Vec3.zero - Vec3.mk 0.1 0.24 0).z) 0
        ((Vec3.zero - Vec3.mk 0.1 0.24 0).x) = Vec3.mk 0 0 (-0.1) := by
      rw [Vec3.ext_iff]
      norm_num [Vec3.zero]
    have htlen : (Vec3.mk 0 0 (-0.1)).length = 0.1 := by
      have h2 : (Vec3.mk 0 0 (-0.1)).lengthSq = 0.1 ^ 2 := by
        simp [Vec3.lengthSq]; norm_num
      unfold Vec3.length; rw [h2, Real.sqrt_sq (by norm_num)]
    have hnorm : (Vec3.mk 0 0 (-0.1)).normalize = Vec3.mk 0 0 (-1) := by
      unfold Vec3.normalize
      rw [htlen, if_neg (by norm_num)]
      ext <;> norm_num
    have hmax : max (1 : ℝ) 0.26 = 1 := max_eq_left (by norm_num)
    simp only [whirlpoolKick, whirlpoolForce]
    rw [htan, hlen, hnorm, hmax, if_pos (by norm_num)]
    simp only [defaultParams, Vec3.zero, Vec3.add_def, Vec3.smul_def, Vec3.ext_iff]
    norm_num

/-- C9 amended: one whirlpool tick leaves a particle unchanged iff its
full 3-D distance from the origin is ≤ 0.1 (not its planar distance);
otherwise it adds a velocity increment with zero vertical component,
perpendicular to the horizontal radius vector, and — whenever the
particle is off the vertical axis — of magnitude
`whirlpoolStrength / max(1, d)` where `d` is again the 3-D distance. -/
theorem c9_whirlpool_kick_geometry (strength : ℝ) (p v : Vec3) (hs : 0 ≤ strength) :
    ((Vec3.zero - p).length ≤ 0.1 → whirlpoolKick strength p v = v) ∧
    (0.1 < (Vec3.zero - p).length →
      (whirlpoolKick strength p v - v).y = 0 ∧
      (whirlpoolKick strength p v - v).dot ⟨p.x, 0, p.z⟩ = 0 ∧
      ((p.x ≠ 0 ∨ p.z ≠ 0) →
        (whirlpoolKick strength p v - v).length =
          strength / max 1 (Vec3.zero - p).length)) := by
  constructor
  · intro h
    unfold whirlpoolKick
    rw [if_neg (not_lt.mpr h)]
  · intro h
    have hkick : whirlpoolKick strength p v - v = whirlpoolForce strength p := by
      unfold whirlpoolKick
      rw [if_pos h, add_sub_cancel_vec]
    refine ⟨?_, ?_, ?_⟩
    · rw [hkick]
      simp only [whirlpoolForce, Vec3.normalize, Vec3.smul_def]
      ring
    · rw [hkick]
      simp only [whirlpoolForce, Vec3.normalize, Vec3.smul_def, Vec3.dot, Vec3.zero,
        Vec3.sub_def]
      ring
    · intro hpl
      rw [hkick]
      unfold whirlpoolForce
      rw [length_smul_abs]
      have htne : (Vec3.mk (-(Vec3.zero - p).z) 0 ((Vec3.zero - p).x)).length ≠ 0 := by
        rw [Ne, Vec3.length_eq_zero_iff, Vec3.lengthSq_eq_zero_iff]
        intro hc
        rw [Vec3.ext_iff] at hc
        simp only [Vec3.zero, Vec3.sub_def] at hc
        rcases hpl with hx | hz
        · exact hx (by linarith [hc.2.2])
        · exact hz (by have := hc.1; linarith)
      rw [Vec3.length_normalize_of_ne_zero htne, mul_one]
      have hmax : (0 : ℝ) < max 1 (Vec3.zero - p).length := by
        have : (0 : ℝ) < 1 := one_pos
        exact lt_max_of_lt_left this
      exact abs_of_nonneg (div_nonneg hs hmax.le)

theorem c9_witness :
    0 ≤ defaultParams.whirlpoolStrength ∧
    0.1 < (Vec3.zero - Vec3.mk 0.6 0.8 0).length ∧
    ((whirlpoolKick defaultParams.whirlpoolStrength ⟨0.6, 0.8, 0⟩ ⟨1, 0, 0⟩ -
        Vec3.mk 1 0 0).y = 0 ∧
      (whirlpoolKick defaultParams.whirlpoolStrength ⟨0.6, 0.8, 0⟩ ⟨1, 0, 0⟩ -
          Vec3.mk 1 0 0).dot ⟨0.6, 0, 0⟩ = 0 ∧
      (whirlpoolKick defaultParams.whirlpoolStrength ⟨0.6, 0.8, 0⟩ ⟨1, 0, 0⟩ -
          Vec3.mk 1 0 0).length =
        defaultParams.whirlpoolStrength / max 1 (Vec3.zero - Vec3.mk 0.6 0.8 0).length) := by
  have hlen : (Vec3.zero - Vec3.mk 0.6 0.8 0).length = 1 := by
    have h2 : (Vec3.zero - Vec3.mk 0.6 0.8 0).lengthSq = 1 ^ 2 := by
      simp [Vec3.zero, Vec3.lengthSq]; norm_num
    unfold Vec3.length; rw [h2, Real.sqrt_sq (by norm_num)]
  have hgt : 0.1 < (Vec3.zero - Vec3.mk 0.6 0.8 0).length := by rw [hlen]; norm_num
  have h := (c9_whirlpool_kick_geometry defaultParams.whirlpoolStrength ⟨0.6, 0.8, 0⟩
    ⟨1, 0, 0⟩ (by norm_num [defaultParams])).2 hgt
  exact ⟨by norm_num [defaultParams], hgt, h.1,
    by simpa using h.2.1, h.2.2 (by norm_num)⟩

theorem processSources_state_at_capacity (now : ℝ) (rand : ℕ → ℝ) :
    ∀ (srcs : List Source) (s : SimState) (k : ℕ),
      s.params.particleCount ≤ (s.particles.length : ℝ) →
      (processSources now rand s k srcs).1 = s := by
  intro srcs
  induction srcs with
  | nil => intro s k _; rfl
  | cons src rest ih =>
    intro s k h
    simp only [processSources, trySpawn]
    split_ifs with hc
    · simp only [addParticleWithVelocity, if_neg (not_lt.mpr h)]
      exact ih s _ h
    · exact ih s k h

/-- A run of per-frame source updates at the given wall-clock times
(`Date.now()` values), threading the random stream. -/
def runFrames (times : List ℝ) (rand : ℕ → ℝ) (s : SimState) (k : ℕ) : SimState × ℕ :=
  times.foldl (fun acc t => updateSources t rand acc.1 acc.2) (s, k)

/-- A state with a single user source of rate 10 and no particles. -/
def c6State : SimState :=
  { baseState with
      sources := [{ position := Vec3.zero, rate := 10, lastSpawn := 0, velocity := none }] }

/-- C6 counterexample: a source with rate `R = 10` whose per-frame update
runs at times 1000, 1090, 1180, 1270 ms — i.e. active for `T = 0.3` s —
spawns only 2 particles (at 1000 and 1180; the 90 ms frames do not clear
the `> 1000/rate` gate), while the claim's formula gives
`min(floor(T·R), capacity − currentCount) = min(3, 1000) = 3`. -/
theorem c6_counterexample_schedule_dependent :
    (runFrames [1000, 1090, 1180, 1270] (fun _ => 1 / 2) c6State 0).1.particles.length = 2 ∧
    (runFrames [1000, 1090, 1180, 1270] (fun _ => 1 / 2) c6State 0).1.particles.length ≠
      min ⌊(0.3 : ℝ) * 10⌋₊ (1000 - 0) := by
  have h2 : (runFrames [1000, 1090, 1180, 1270] (fun _ => 1 / 2) c6State 0).1.particles.length
      = 2 := by
    norm_num [runFrames, updateSources, processSources, trySpawn, addParticleWithVelocity,
      c6State, baseState, defaultParams]
  refine ⟨h2, ?_⟩
  rw [h2]
  norm_num

/-- C6 amended: the spawn count is frame-schedule-dependent, not the
closed formula `min(floor(T·R), capacity − currentCount)`.  Per frame, a
(single) source spawns exactly one particle when
`now − lastSpawn > 1000/rate` and the active count is below capacity, and
none otherwise; and any spawn attempted at capacity changes no
per-particle array (`addParticleWithVelocity` is a silent no-op then,
though `lastSpawn` is still restamped). -/
theorem c6_spawn_per_frame_and_capacity (s : SimState) (now : ℝ) (rand : ℕ → ℝ) (k : ℕ) :
    (∀ src : Source, s.sources = [src] → s.scenarioSources = [] →
      (updateSources now rand s k).1.particles.length =
        s.particles.length +
          (if now - src.lastSpawn > 1000 / src.rate ∧
              (s.particles.length : ℝ) < s.params.particleCount then 1 else 0)) ∧
    (s.params.particleCount ≤ (s.particles.length : ℝ) →
      (updateSources now rand s k).1.particles = s.particles ∧
      (updateSources now rand s k).1.velocities = s.velocities ∧
      (updateSources now rand s k).1.accelerations = s.accelerations ∧
      (updateSources now rand s k).1.densities = s.densities ∧
      (updateSources now rand s k).1.pressures = s.pressures ∧
      (updateSources now rand s k).1.neighbors = s.neighbors) := by
  constructor
  · intro src hs hsc
    simp only [updateSources, hs, hsc, processSources, trySpawn, addParticleWithVelocity]
    by_cases h1 : now - src.lastSpawn > 1000 / src.rate
    · by_cases hcap : (s.particles.length : ℝ) < s.params.particleCount
      · simp [h1, hcap]
      · simp [h1, hcap]
    · simp [h1]
  · intro hcap
    simp only [updateSources]
    rw [processSources_state_at_capacity now rand s.sources s k hcap,
      processSources_state_at_capacity now rand s.scenarioSources s _ hcap]
    exact ⟨rfl, rfl, rfl, rfl, rfl, rfl⟩

theorem c6_witness :
    (c6State.sources =
        [{ position := Vec3.zero, rate := 10, lastSpawn := 0, velocity := none }] ∧
      c6State.scenarioSources = [] ∧
      (updateSources 1000 (fun _ => 1 / 2) c6State 0).1.particles.length =
        c6State.particles.length +
          (if (1000 : ℝ) - (0 : ℝ) > 1000 / 10 ∧
              (c6State.particles.length : ℝ) < c6State.params.particleCount then 1 else 0)) ∧
    (({ baseState with params := { defaultParams with particleCount := 0 } } : SimState).params.particleCount ≤
        (({ baseState with params := { defaultParams with particleCount := 0 } } : SimState).particles.length : ℝ) ∧
      (updateSources 1000 (fun _ => 1 / 2)
          { baseState with params := { defaultParams with particleCount := 0 } } 0).1.particles =
        ({ baseState with params := { defaultParams with particleCount := 0 } } : SimState).particles) := by
  constructor
  · refine ⟨rfl, rfl, ?_⟩
    exact (c6_spawn_per_frame_and_capacity c6State 1000 (fun _ => 1 / 2) 0).1
      { position := Vec3.zero, rate := 10, lastSpawn := 0, velocity := none } rfl rfl
  · refine ⟨by norm_num [baseState, defaultParams], ?_⟩
    exact ((c6_spawn_per_frame_and_capacity
      { baseState with params := { defaultParams with particleCount := 0 } } 1000
      (fun _ => 1 / 2) 0).2 (by norm_num [baseState, defaultParams])).1

theorem clampVelocity_lengthSq_le {M : ℝ} (hM : 0 ≤ M) (v : Vec3) :
    (clampVelocity M v).lengthSq ≤ M ^ 2 := by
  unfold clampVelocity
  split_ifs with h
  · have hlen : 0 < v.length := lt_of_le_of_lt hM h
    have heq : (M / v.length) ^ 2 * v.lengthSq = M ^ 2 := by
      rw [← Vec3.sq_length]
      field_simp
    rw [Vec3.lengthSq_smul, heq]
  · exact (Vec3.length_le_iff hM).mp (not_lt.mp h)

theorem clampVelocity_exact {M : ℝ} (hM : 0 ≤ M) {v : Vec3} (h : M < v.length) :
    (clampVelocity M v).length = M := by
  unfold clampVelocity
  rw [if_pos h]
  have hlen : 0 < v.length := lt_of_le_of_lt hM h
  rw [length_smul_abs, abs_of_nonneg (by positivity), div_mul_cancel₀ _ hlen.ne.symm]

theorem neg_le_and_le_of_sq_le {a M : ℝ} (hM : 0 ≤ M) (h : a * a ≤ M * M) :
    -M ≤ a ∧ a ≤ M := by
  constructor <;> nlinarith [sq_nonneg (a - M), sq_nonneg (a + M)]

theorem damped_abs_sq_le (d a : ℝ) (hd0 : 0 ≤ d) (hd1 : d ≤ 1) :
    (|a| * d) * (|a| * d) ≤ a * a := by
  have h1 : (|a| * d) * (|a| * d) = (a * a) * (d * d) := by
    rw [show (|a| * d) * (|a| * d) = (|a| * |a|) * (d * d) by ring, abs_mul_abs_self]
  have h2 : 0 ≤ 1 - d * d := by nlinarith
  nlinarith [mul_nonneg (mul_self_nonneg a) h2]

theorem boundary_axis_vel_sq (d pc vc lo hi : ℝ) (hd0 : 0 ≤ d) (hd1 : d ≤ 1) :
    ((if pc < lo then (lo, |vc| * d)
      else if pc > hi then (hi, -|vc| * d) else (pc, vc)) : ℝ × ℝ).2 *
      ((if pc < lo then (lo, |vc| * d)
        else if pc > hi then (hi, -|vc| * d) else (pc, vc)) : ℝ × ℝ).2 ≤ vc * vc := by
  split_ifs <;> dsimp only
  · exact damped_abs_sq_le d vc hd0 hd1
  · have := damped_abs_sq_le d vc hd0 hd1
    nlinarith
  · exact le_rfl

theorem handleBoundary_vel_sq_le {d : ℝ} (hd0 : 0 ≤ d) (hd1 : d ≤ 1) (p v : Vec3) :
    ((handleBoundaryCollisions d p v).2).lengthSq ≤ v.lengthSq := by
  have hx := boundary_axis_vel_sq d p.x v.x bbMin bbMax hd0 hd1
  have hy := boundary_axis_vel_sq d p.y v.y bbMin bbMax hd0 hd1
  have hz := boundary_axis_vel_sq d p.z v.z bbMin bbMax hd0 hd1
  simp only [handleBoundaryCollisions, Vec3.lengthSq]
  linarith

theorem planlimit_axis_vel_sq (d x vc : ℝ) (hd0 : 0 ≤ d) (hd1 : d ≤ 1) :
    ((if |x| > 10 then (mathSign x * 10, vc * -d) else (x, vc)) : ℝ × ℝ).2 *
      ((if |x| > 10 then (mathSign x * 10, vc * -d) else (x, vc)) : ℝ × ℝ).2 ≤
      vc * vc := by
  split_ifs <;> dsimp only
  · have h2 : 0 ≤ 1 - d * d := by nlinarith
    nlinarith [mul_nonneg (mul_self_nonneg vc) h2]
  · exact le_rfl

set_option maxHeartbeats 1000000 in
theorem gridStage1_vel_sq_le (pr : Params) (rand : ℕ → ℝ) (k : ℕ) (p v : Vec3)
    (hd0 : 0 ≤ pr.damping) (hd : pr.damping ≤ 0.9) (hM : 3 ≤ pr.maxVelocity)
    (hr : ∀ n, 0 ≤ rand n ∧ rand n ≤ 1)
    (hv : v.lengthSq ≤ pr.maxVelocity ^ 2) :
    ((if |p.y| < pr.collisionThreshold ∧ v.y < 0 then
        if rand k < 0.1 then
          ((⟨p.x, 0, p.z⟩ : Vec3),
           (⟨v.x * 0.98 + (rand (k + 1) - 0.5) * 0.05, |v.y| * pr.damping,
             v.z * 0.98 + (rand (k + 2) - 0.5) * 0.05⟩ : Vec3), k + 3)
        else ((⟨p.x, 0, p.z⟩ : Vec3),
          (⟨v.x * 0.98, |v.y| * pr.damping, v.z * 0.98⟩ : Vec3), k + 1)
      else (p, v, k)).2.1).lengthSq ≤ pr.maxVelocity ^ 2 := by
  have hM0 : (0 : ℝ) ≤ pr.maxVelocity := by linarith
  have hMM : 3 * pr.maxVelocity ≤ pr.maxVelocity * pr.maxVelocity := by nlinarith
  have hdd : pr.damping * pr.damping ≤ 0.81 := by nlinarith
  have hyy : |v.y| * |v.y| = v.y * v.y := abs_mul_abs_self v.y
  have hsum : v.x * v.x + v.y * v.y + v.z * v.z ≤ pr.maxVelocity * pr.maxVelocity := by
    have h := hv; unfold Vec3.lengthSq at h; nlinarith
  have hvx2 : v.x * v.x ≤ pr.maxVelocity * pr.maxVelocity := by
    nlinarith [mul_self_nonneg v.y, mul_self_nonneg v.z]
  have hvz2 : v.z * v.z ≤ pr.maxVelocity * pr.maxVelocity := by
    nlinarith [mul_self_nonneg v.x, mul_self_nonneg v.y]
  obtain ⟨hvxl, hvxu⟩ := neg_le_and_le_of_sq_le hM0 hvx2
  obtain ⟨hvzl, hvzu⟩ := neg_le_and_le_of_sq_le hM0 hvz2
  obtain ⟨he1a, he1b⟩ := hr (k + 1)
  obtain ⟨he2a, he2b⟩ := hr (k + 2)
  have hvxe1 : v.x * ((rand (k + 1) - 0.5) * 0.05) ≤ pr.maxVelocity * 0.025 := by
    nlinarith
  have hvze2 : v.z * ((rand (k + 2) - 0.5) * 0.05) ≤ pr.maxVelocity * 0.025 := by
    nlinarith
  have he1sq : ((rand (k + 1) - 0.5) * 0.05) * ((rand (k + 1) - 0.5) * 0.05) ≤
      0.000625 := by nlinarith
  have he2sq : ((rand (k + 2) - 0.5) * 0.05) * ((rand (k + 2) - 0.5) * 0.05) ≤
      0.000625 := by nlinarith
  split_ifs
  · simp only [Vec3.lengthSq]
    nlinarith [mul_self_nonneg v.x, mul_self_nonneg v.y, mul_self_nonneg v.z,
      mul_nonneg (mul_self_nonneg v.y) (sub_nonneg.mpr hdd)]
  · simp only [Vec3.lengthSq]
    nlinarith [mul_self_nonneg v.x, mul_self_nonneg v.y, mul_self_nonneg v.z,
      mul_nonneg (mul_self_nonneg v.y) (sub_nonneg.mpr hdd)]
  · exact hv

set_option maxHeartbeats 1000000 in
theorem handleGrid_vel_sq_le (pr : Params) (rand : ℕ → ℝ) (k : ℕ) (p v : Vec3)
    (hd0 : 0 ≤ pr.damping) (hd : pr.damping ≤ 0.9) (hM : 3 ≤ pr.maxVelocity)
    (hr : ∀ n, 0 ≤ rand n ∧ rand n ≤ 1)
    (hv : v.lengthSq ≤ pr.maxVelocity ^ 2) :
    ((handleGridCollision pr rand k p v).2.1).lengthSq ≤ pr.maxVelocity ^ 2 := by
  have hd1 : pr.damping ≤ 1 := by linarith
  simp only [handleGridCollision]
  set r1 := (if |p.y| < pr.collisionThreshold ∧ v.y < 0 then
      if rand k < 0.1 then
        ((⟨p.x, 0, p.z⟩ : Vec3),
         (⟨v.x * 0.98 + (rand (k + 1) - 0.5) * 0.05, |v.y| * pr.damping,
           v.z * 0.98 + (rand (k + 2) - 0.5) * 0.05⟩ : Vec3), k + 3)
      else ((⟨p.x, 0, p.z⟩ : Vec3),
        (⟨v.x * 0.98, |v.y| * pr.damping, v.z * 0.98⟩ : Vec3), k + 1)
    else (p, v, k)) with hr1
  have hstage1 : r1.2.1.lengthSq ≤ pr.maxVelocity ^ 2 := by
    rw [hr1]
    exact gridStage1_vel_sq_le pr rand k p v hd0 hd hM hr hv
  have hx := planlimit_axis_vel_sq pr.damping r1.1.x r1.2.1.x hd0 hd1
  have hz := planlimit_axis_vel_sq pr.damping r1.1.z r1.2.1.z hd0 hd1
  simp only [Vec3.lengthSq] at hstage1 ⊢
  have hyy : r1.2.1.y * r1.2.1.y ≤
      r1.2.1.x * r1.2.1.x + r1.2.1.y * r1.2.1.y + r1.2.1.z * r1.2.1.z := by
    nlinarith [mul_self_nonneg r1.2.1.x, mul_self_nonneg r1.2.1.z]
  linarith

theorem reflect_lengthSq (v m : Vec3) :
    (v.reflect m).lengthSq =
      v.lengthSq - 4 * (v.dot m) ^ 2 + 4 * (v.dot m) ^ 2 * m.lengthSq := by
  simp only [Vec3.reflect, Vec3.dot, Vec3.lengthSq, Vec3.sub_def, Vec3.smul_def]
  ring

theorem normalize_lengthSq_le_one (a : Vec3) : a.normalize.lengthSq ≤ 1 := by
  have h := Vec3.length_normalize_le_one a
  have h2 := Vec3.sq_length a.normalize
  nlinarith [Vec3.length_nonneg a.normalize]

theorem handleObstacleOne_vel_sq_le {d : ℝ} (hd0 : 0 ≤ d) (hd1 : d ≤ 1)
    (ob : Obstacle) (hrad : 0 ≤ ob.radius ∧ ob.radius ≤ 1) (pv : Vec3 × Vec3) :
    ((handleObstacleOne d pv ob).2).lengthSq ≤ pv.2.lengthSq := by
  simp only [handleObstacleOne]
  split_ifs with hin
  · have hmsq : (ob.radius • (pv.1 - ob.position).normalize).lengthSq ≤ 1 := by
      rw [Vec3.lengthSq_smul]
      have h1 := normalize_lengthSq_le_one (pv.1 - ob.position)
      have h2 := Vec3.lengthSq_nonneg (pv.1 - ob.position).normalize
      nlinarith [hrad.1, hrad.2]
    have hrefl := reflect_lengthSq pv.2 (ob.radius • (pv.1 - ob.position).normalize)
    rw [Vec3.lengthSq_smul]
    have hd2 : d ^ 2 ≤ 1 := by nlinarith
    have hA : 0 ≤ (pv.2.dot (ob.radius • (pv.1 - ob.position).normalize)) ^ 2 *
        (1 - (ob.radius • (pv.1 - ob.position).normalize).lengthSq) :=
      mul_nonneg (sq_nonneg _) (by linarith)
    have hB : 0 ≤ (1 - d ^ 2) *
        (pv.2.reflect (ob.radius • (pv.1 - ob.position).normalize)).lengthSq :=
      mul_nonneg (by linarith) (Vec3.lengthSq_nonneg _)
    nlinarith [hrefl, hA, hB]
  · exact le_rfl

theorem handleObstacleCollisions_vel_sq_le {d : ℝ} (hd0 : 0 ≤ d) (hd1 : d ≤ 1)
    (obstacles : List Obstacle) (hobs : ∀ o ∈ obstacles, 0 ≤ o.radius ∧ o.radius ≤ 1) :
    ∀ pv : Vec3 × Vec3,
      ((obstacles.foldl (handleObstacleOne d) pv).2).lengthSq ≤ pv.2.lengthSq := by
  induction obstacles with
  | nil => intro pv; exact le_rfl
  | cons ob rest ih =>
    intro pv
    have h1 := handleObstacleOne_vel_sq_le hd0 hd1 ob (hobs ob (by simp)) pv
    have h2 := ih (fun o ho => hobs o (by simp [ho])) (handleObstacleOne d pv ob)
    simp only [List.foldl_cons]
    exact le_trans h2 h1

theorem substepParticle_vel_sq_le (pr : Params) (obstacles : List Obstacle)
    (rand : ℕ → ℝ) (subDt : ℝ) (k : ℕ) (t : Vec3 × Vec3 × Vec3)
    (hd0 : 0 ≤ pr.damping) (hd : pr.damping ≤ 0.9) (hM : 3 ≤ pr.maxVelocity)
    (hr : ∀ n, 0 ≤ rand n ∧ rand n ≤ 1)
    (hobs : ∀ o ∈ obstacles, 0 ≤ o.radius ∧ o.radius ≤ 1) :
    ((substepParticle pr obstacles rand subDt k t).1.2.1).lengthSq ≤
      pr.maxVelocity ^ 2 := by
  have hM0 : (0 : ℝ) ≤ pr.maxVelocity := by linarith
  have hd1 : pr.damping ≤ 1 := by linarith
  simp only [substepParticle, handleObstacleCollisions]
  set v2 := clampVelocity pr.maxVelocity (t.2.1 + subDt • t.2.2) with hv2
  set bc := handleBoundaryCollisions pr.damping (t.1 + subDt • v2) v2 with hbc
  set gc := handleGridCollision pr rand k bc.1 bc.2 with hgc
  have h1 : v2.lengthSq ≤ pr.maxVelocity ^ 2 := by
    rw [hv2]; exact clampVelocity_lengthSq_le hM0 _
  have h2 : bc.2.lengthSq ≤ v2.lengthSq := by
    rw [hbc]; exact handleBoundary_vel_sq_le hd0 hd1 _ _
  have h3 : gc.2.1.lengthSq ≤ pr.maxVelocity ^ 2 := by
    rw [hgc]; exact handleGrid_vel_sq_le pr rand k bc.1 bc.2 hd0 hd hM hr
      (le_trans h2 h1)
  have h4 := handleObstacleCollisions_vel_sq_le hd0 hd1 obstacles hobs (gc.1, gc.2.1)
  exact le_trans h4 h3

theorem integratePass_mem (pr : Params) (obstacles : List Obstacle) (rand : ℕ → ℝ)
    (subDt : ℝ) :
    ∀ (ts : List (Vec3 × Vec3 × Vec3)) (k : ℕ) (t' : Vec3 × Vec3 × Vec3),
      t' ∈ (integratePass pr obstacles rand subDt k ts).1 →
      ∃ (k0 : ℕ) (t0 : Vec3 × Vec3 × Vec3),
        t' = (substepParticle pr obstacles rand subDt k0 t0).1 := by
  intro ts
  induction ts with
  | nil => intro k t' h; simp [integratePass] at h
  | cons t rest ih =>
    intro k t' h
    simp only [integratePass, List.mem_cons] at h
    rcases h with h | h
    · exact ⟨k, t, h⟩
    · exact ih _ t' h

theorem addParticleWithVelocity_preserves (position velocity : Vec3) (s : SimState) :
    (addParticleWithVelocity position velocity s).params = s.params ∧
    (addParticleWithVelocity position velocity s).obstacles = s.obstacles := by
  unfold addParticleWithVelocity
  split_ifs <;> exact ⟨rfl, rfl⟩

theorem processSources_preserves (now : ℝ) (rand : ℕ → ℝ) :
    ∀ (srcs : List Source) (s : SimState) (k : ℕ),
      (processSources now rand s k srcs).1.params = s.params ∧
      (processSources now rand s k srcs).1.obstacles = s.obstacles := by
  intro srcs
  induction srcs with
  | nil => intro s k; exact ⟨rfl, rfl⟩
  | cons src rest ih =>
    intro s k
    simp only [processSources, trySpawn]
    split_ifs
    · constructor
      · rw [(ih _ _).1, (addParticleWithVelocity_preserves _ _ s).1]
      · rw [(ih _ _).2, (addParticleWithVelocity_preserves _ _ s).2]
    · exact ih s k

theorem updateSources_preserves (now : ℝ) (rand : ℕ → ℝ) (s : SimState) (k : ℕ) :
    (updateSources now rand s k).1.params = s.params ∧
    (updateSources now rand s k).1.obstacles = s.obstacles := by
  simp only [updateSources]
  have h1 := processSources_preserves now rand s.sources s k
  have h2 := processSources_preserves now rand s.scenarioSources
    (processSources now rand s k s.sources).1 (processSources now rand s k s.sources).2.1
  exact ⟨h2.1.trans h1.1, h2.2.trans h1.2⟩

theorem getD_eq_or_mem {α : Type} : ∀ (l : List α) (i : ℕ) (dflt : α),
    l.getD i dflt = dflt ∨ l.getD i dflt ∈ l := by
  intro l
  induction l with
  | nil => intro i d; left; simp
  | cons a t ih =>
    intro i d
    cases i with
    | zero => right; simp
    | succ n =>
      rcases ih n d with h | h
      · left; simpa using h
      · right; simp only [List.getD_cons_succ]; exact List.mem_cons_of_mem a h

/-- C4 amended: within each sub-step, a velocity whose magnitude exceeds
`maxVelocity` is rescaled to exactly `maxVelocity` by the clamp
(unconditionally); and at the end of a whole `update` (after the clamp
and all three collision stages of both sub-steps) every stored speed is
at most `maxVelocity` provided `0 ≤ damping ≤ 0.9`, `maxVelocity ≥ 3`
(defaults 0.8 and 5), `Math.random() ∈ [0,1]`, and every obstacle radius
≤ 1 (the code always uses 0.5).  These provisos are necessary, not
merely convenient: the parameters are runtime-settable without
validation, and at `damping = 1` the ground-plane collision keeps `|v_y|`
while its random horizontal perturbation adds up to 0.025 per horizontal
axis, so a frame can end above `maxVelocity` — see the counterexample
below this theorem's witness. -/
theorem c4_speed_limited (s : SimState) (now : ℝ) (rand : ℕ → ℝ) (k : ℕ)
    (hd0 : 0 ≤ s.params.damping) (hd : s.params.damping ≤ 0.9)
    (hM : 3 ≤ s.params.maxVelocity)
    (hr : ∀ n, 0 ≤ rand n ∧ rand n ≤ 1)
    (hobs : ∀ o ∈ s.obstacles, 0 ≤ o.radius ∧ o.radius ≤ 1) :
    (∀ v : Vec3, s.params.maxVelocity < v.length →
      (clampVelocity s.params.maxVelocity v).length = s.params.maxVelocity) ∧
    ∀ i : ℕ, ((update now rand s k).1.velocities.getD i Vec3.zero).length ≤
      s.params.maxVelocity := by
  have hM0 : (0 : ℝ) ≤ s.params.maxVelocity := by linarith
  constructor
  · intro v hv
    exact clampVelocity_exact hM0 hv
  · intro i
    rcases getD_eq_or_mem (update now rand s k).1.velocities i Vec3.zero with h | h
    · rw [h, length_zero_vec]; exact hM0
    · -- the stored velocity is the output of the second integration pass
      have hpre := updateSources_preserves now rand
        (computeForces (computeDensityPressure (findNeighbors s))) k
      have hparams : (updateSources now rand
          (computeForces (computeDensityPressure (findNeighbors s))) k).1.params =
          s.params := hpre.1
      have hobs' : (updateSources now rand
          (computeForces (computeDensityPressure (findNeighbors s))) k).1.obstacles =
          s.obstacles := hpre.2
      rw [Vec3.length_le_iff hM0]
      simp only [update] at h ⊢
      obtain ⟨t', ht', heq⟩ := List.mem_map.mp h
      rw [← heq]
      obtain ⟨k0, t0, rfl⟩ := integratePass_mem _ _ rand _ _ _ _ ht'
      have hb := substepParticle_vel_sq_le
        (updateSources now rand
          (computeForces (computeDensityPressure (findNeighbors s))) k).1.params
        (updateSources now rand
          (computeForces (computeDensityPressure (findNeighbors s))) k).1.obstacles
        rand
        ((updateSources now rand
          (computeForces (computeDensityPressure (findNeighbors s))) k).1.params.timeStep /
          (subSteps : ℝ))
        k0 t0
        (by rw [hparams]; exact hd0) (by rw [hparams]; exact hd)
        (by rw [hparams]; exact hM) hr (by rw [hobs']; exact hobs)
      exact hb.trans_eq (by rw [hparams])

theorem c4_witness :
    (0 ≤ baseState.params.damping ∧ baseState.params.damping ≤ 0.9 ∧
      3 ≤ baseState.params.maxVelocity) ∧
    (∀ v : Vec3, baseState.params.maxVelocity < v.length →
      (clampVelocity baseState.params.maxVelocity v).length =
        baseState.params.maxVelocity) ∧
    ∀ i : ℕ, ((update 0 (fun _ => 1 / 2) baseState 0).1.velocities.getD i
        Vec3.zero).length ≤ baseState.params.maxVelocity := by
  have h := c4_speed_limited baseState 0 (fun _ => 1 / 2) 0
    (by norm_num [baseState, defaultParams]) (by norm_num [baseState, defaultParams])
    (by norm_num [baseState, defaultParams])
    (fun n => ⟨by norm_num, by norm_num⟩)
    (by simp [baseState])
  exact ⟨⟨by norm_num [baseState, defaultParams], by norm_num [baseState, defaultParams],
    by norm_num [baseState, defaultParams]⟩, h.1, h.2⟩

theorem length_mk_000 : (Vec3.mk 0 0 0).length = 0 := by
  unfold Vec3.length Vec3.lengthSq
  simp

/-- The random stream driving the `damping = 1` counterexample: the first
read (`Math.random() < 0.1` gate of the ground-plane perturbation)
returns 0.05, every later read returns 0.9, so the perturbation fires and
adds `(0.9 − 0.5)·0.05 = 0.02` to each horizontal velocity component. -/
def c4rand : ℕ → ℝ := fun n => if n = 0 then 0.05 else 0.9

/-- A one-particle state with `damping` raised to 1 through the
unvalidated runtime parameter surface and everything else at its default:
the particle falls at full speed `(0, −5, 0)` from `y = 0.14`, so the
second sub-step bounces it off the ground plane. -/
def cs4 : SimState :=
  { baseState with
      params := { defaultParams with damping := 1 }
      particles := [⟨0, 0.14, 0⟩]
      velocities := [⟨0, -5, 0⟩]
      accelerations := [Vec3.zero]
      densities := [0]
      pressures := [0]
      neighbors := [[]] }

theorem cs4_neighbors_empty : neighborsOf cs4 0 = [] := by
  rw [List.eq_nil_iff_forall_not_mem]
  intro j hj
  unfold neighborsOf at hj
  simp only [List.mem_flatMap, List.mem_filter, decide_eq_true_eq] at hj
  obtain ⟨d, -, hjb, hj0, -⟩ := hj
  have hjr : j < cs4.particles.length := by
    have h := hjb
    unfold hashBucket at h
    rw [List.mem_filter] at h
    exact List.mem_range.mp h.1
  have hlen : cs4.particles.length = 1 := rfl
  rw [hlen] at hjr
  exact hj0 (by omega)

set_option maxHeartbeats 1000000 in
theorem cs4_substep1 :
    substepParticle cs4.params cs4.obstacles c4rand
      (cs4.params.timeStep / (subSteps : ℝ)) 0
      ((⟨0, 0.14, 0⟩ : Vec3), (⟨0, -5, 0⟩ : Vec3),
        (⟨0, -cs4.params.gravity, 0⟩ : Vec3)) =
      (((⟨0, 0.1, 0⟩ : Vec3), (⟨0, -5, 0⟩ : Vec3), (⟨0, -0.07848, 0⟩ : Vec3)), 0) := by
  norm_num [substepParticle, clampVelocity, handleBoundaryCollisions,
    handleGridCollision, handleObstacleCollisions, handleObstacleOne, Vec3.normalize,
    Vec3.reflect, Vec3.dot, cs4, baseState, defaultParams, subSteps, c4rand,
    length_mk_x00, length_mk_000, length_mk_0y0, Vec3.zero, abs_of_nonneg,
    abs_of_nonpos, mathSign, bbMin, bbMax, Prod.ext_iff, Vec3.ext_iff]

set_option maxHeartbeats 1000000 in
theorem cs4_substep2 :
    substepParticle cs4.params cs4.obstacles c4rand
      (cs4.params.timeStep / (subSteps : ℝ)) 0
      ((⟨0, 0.1, 0⟩ : Vec3), (⟨0, -5, 0⟩ : Vec3), (⟨0, -0.07848, 0⟩ : Vec3)) =
      (((⟨0, 0, 0⟩ : Vec3), (⟨0.02, 5, 0.02⟩ : Vec3),
        (⟨0, -0.00062784, 0⟩ : Vec3)), 3) := by
  norm_num [substepParticle, clampVelocity, handleBoundaryCollisions,
    handleGridCollision, handleObstacleCollisions, handleObstacleOne, Vec3.normalize,
    Vec3.reflect, Vec3.dot, cs4, baseState, defaultParams, subSteps, c4rand,
    length_mk_x00, length_mk_000, length_mk_0y0, Vec3.zero, abs_of_nonneg,
    abs_of_nonpos, mathSign, bbMin, bbMax, Prod.ext_iff, Vec3.ext_iff]

set_option maxHeartbeats 1000000 in
/-- C4 counterexample: with `damping = 1` — reachable at runtime through
the unvalidated parameter surface — and everything else default, one
`update` from `cs4` ends the frame with velocity `(0.02, 5, 0.02)`:
the first sub-step's clamp leaves `(0, −5, 0)` and moves the particle to
`y = 0.1`; the second sub-step's ground bounce keeps `|v_y| · 1 = 5` and
the 10%-probability perturbation adds 0.02 to each horizontal component,
so the end-of-frame speed is `√25.0008 > 5 = maxVelocity`, refuting the
claim's end-of-frame bound as stated. -/
theorem c4_counterexample_damping_one_exceeds_limit :
    (update 0 c4rand cs4 0).1.velocities = [⟨0.02, 5, 0.02⟩] ∧
    cs4.params.maxVelocity < (Vec3.mk 0.02 5 0.02).length := by
  have hs3 : computeForces (computeDensityPressure (findNeighbors cs4)) =
      { cs4 with
        neighbors := [[]]
        densities := [densityOf (findNeighbors cs4) 0]
        pressures := [taitPressure cs4.params.gasConstant cs4.params.restDensity
          (densityOf (findNeighbors cs4) 0)]
        accelerations := [⟨0, -cs4.params.gravity, 0⟩] } := by
    simp [findNeighbors, computeDensityPressure, computeForces, cs4_neighbors_empty,
      Function.comp, show cs4.particles.length = 1 from rfl,
      show List.range 1 = [0] from rfl]
  have hus : updateSources 0 c4rand
      (computeForces (computeDensityPressure (findNeighbors cs4))) 0 =
      (computeForces (computeDensityPressure (findNeighbors cs4)), 0) := by
    rw [hs3]
    rfl
  constructor
  · simp only [update, hus]
    rw [hs3]
    dsimp only
    rw [show cs4.particles = [(⟨0, 0.14, 0⟩ : Vec3)] from rfl,
        show cs4.velocities = [(⟨0, -5, 0⟩ : Vec3)] from rfl]
    rw [show ([(⟨0, 0.14, 0⟩ : Vec3)].zip ([(⟨0, -5, 0⟩ : Vec3)].zip
        [(⟨0, -cs4.params.gravity, 0⟩ : Vec3)])) =
      [((⟨0, 0.14, 0⟩ : Vec3), (⟨0, -5, 0⟩ : Vec3),
        (⟨0, -cs4.params.gravity, 0⟩ : Vec3))] from rfl]
    simp only [integratePass]
    rw [cs4_substep1]
    dsimp only
    rw [cs4_substep2]
    dsimp only
    rfl
  · have hmv : cs4.params.maxVelocity = 5 := by norm_num [cs4, baseState, defaultParams]
    have h : (Vec3.mk 0.02 5 0.02).lengthSq = 25.0008 := by norm_num [Vec3.lengthSq]
    rw [hmv]
    unfold Vec3.length
    rw [h, Real.lt_sqrt (by norm_num)]
    norm_num

/-- Membership in the simulation's bounding box `[-5,5]³`. -/
def inBox (p : Vec3) : Prop :=
  bbMin ≤ p.x ∧ p.x ≤ bbMax ∧ bbMin ≤ p.y ∧ p.y ≤ bbMax ∧ bbMin ≤ p.z ∧ p.z ≤ bbMax

theorem boundary_axis_pos (d pc vc lo hi : ℝ) (hlo : lo ≤ hi) :
    lo ≤ ((if pc < lo then (lo, |vc| * d)
           else if pc > hi then (hi, -|vc| * d) else (pc, vc)) : ℝ × ℝ).1 ∧
    ((if pc < lo then (lo, |vc| * d)
      else if pc > hi then (hi, -|vc| * d) else (pc, vc)) : ℝ × ℝ).1 ≤ hi := by
  split_ifs with h1 h2
  · exact ⟨le_rfl, hlo⟩
  · exact ⟨hlo, le_rfl⟩
  · exact ⟨not_lt.mp h1, not_lt.mp h2⟩

theorem handleBoundary_pos_in_box (d : ℝ) (p v : Vec3) :
    inBox (handleBoundaryCollisions d p v).1 := by
  have hx := boundary_axis_pos d p.x v.x bbMin bbMax (by norm_num [bbMin, bbMax])
  have hy := boundary_axis_pos d p.y v.y bbMin bbMax (by norm_num [bbMin, bbMax])
  have hz := boundary_axis_pos d p.z v.z bbMin bbMax (by norm_num [bbMin, bbMax])
  simp only [handleBoundaryCollisions, inBox]
  exact ⟨hx.1, hx.2, hy.1, hy.2, hz.1, hz.2⟩

theorem planlimit_axis_id {d x vc : ℝ} (hx : |x| ≤ 5) :
    ((if |x| > 10 then (mathSign x * 10, vc * -d) else (x, vc)) : ℝ × ℝ).1 = x := by
  rw [if_neg (by simp only [not_lt]; linarith)]

theorem handleGrid_pos_in_box (pr : Params) (rand : ℕ → ℝ) (k : ℕ) (p v : Vec3)
    (hp : inBox p) : inBox (handleGridCollision pr rand k p v).1 := by
  simp only [handleGridCollision]
  set r1 := (if |p.y| < pr.collisionThreshold ∧ v.y < 0 then
      if rand k < 0.1 then
        ((⟨p.x, 0, p.z⟩ : Vec3),
         (⟨v.x * 0.98 + (rand (k + 1) - 0.5) * 0.05, |v.y| * pr.damping,
           v.z * 0.98 + (rand (k + 2) - 0.5) * 0.05⟩ : Vec3), k + 3)
      else ((⟨p.x, 0, p.z⟩ : Vec3),
        (⟨v.x * 0.98, |v.y| * pr.damping, v.z * 0.98⟩ : Vec3), k + 1)
    else (p, v, k)) with hr1
  obtain ⟨hx1, hx2, hy1, hy2, hz1, hz2⟩ := hp
  have hbox1 : inBox r1.1 := by
    rw [hr1]
    split_ifs
    · exact ⟨hx1, hx2, by norm_num [bbMin], by norm_num [bbMax], hz1, hz2⟩
    · exact ⟨hx1, hx2, by norm_num [bbMin], by norm_num [bbMax], hz1, hz2⟩
    · exact ⟨hx1, hx2, hy1, hy2, hz1, hz2⟩
  obtain ⟨gx1, gx2, gy1, gy2, gz1, gz2⟩ := hbox1
  have haxx : |r1.1.x| ≤ 5 := abs_le.mpr ⟨by simpa [bbMin] using gx1, by simpa [bbMax] using gx2⟩
  have haxz : |r1.1.z| ≤ 5 := abs_le.mpr ⟨by simpa [bbMin] using gz1, by simpa [bbMax] using gz2⟩
  rw [planlimit_axis_id haxx, planlimit_axis_id haxz]
  exact ⟨gx1, gx2, gy1, gy2, gz1, gz2⟩

theorem substepParticle_pos_in_box (pr : Params) (rand : ℕ → ℝ) (subDt : ℝ) (k : ℕ)
    (t : Vec3 × Vec3 × Vec3) :
    inBox (substepParticle pr [] rand subDt k t).1.1 := by
  simp only [substepParticle, handleObstacleCollisions, List.foldl_nil]
  exact handleGrid_pos_in_box pr rand k _ _ (handleBoundary_pos_in_box pr.damping _ _)

/-- C5 amended: with no obstacles in the state, every particle position
lies inside the bounding box `[-5,5]³` at the end of every `update` —
exactly, not merely up to an epsilon: the per-axis boundary clamp runs on
every sub-step, the ground-plane stage only moves `y` to `0` or clamps
`|x|,|z|` at 10 (unreachable after the box clamp), and with no obstacles
nothing runs after it. -/
theorem c5_positions_in_box_no_obstacles (s : SimState) (now : ℝ) (rand : ℕ → ℝ)
    (k : ℕ) (hobs : s.obstacles = []) :
    ∀ p ∈ (update now rand s k).1.particles, inBox p := by
  intro p hp
  simp only [update] at hp
  obtain ⟨t', ht', heq⟩ := List.mem_map.mp hp
  rw [← heq]
  have hobs' : (updateSources now rand
      (computeForces (computeDensityPressure (findNeighbors s))) k).1.obstacles = [] :=
    (updateSources_preserves now rand
      (computeForces (computeDensityPressure (findNeighbors s))) k).2.trans hobs
  rw [hobs'] at ht'
  obtain ⟨k0, t0, rfl⟩ := integratePass_mem _ _ rand _ _ _ _ ht'
  exact substepParticle_pos_in_box _ rand _ k0 t0

/-- A one-particle, no-obstacle state used to witness the boxed-position
theorem. -/
def noObstacleState : SimState :=
  { baseState with
      particles := [⟨0, 3, 0⟩]
      velocities := [Vec3.zero]
      accelerations := [⟨0, -9.81, 0⟩]
      densities := [0]
      pressures := [0]
      neighbors := [[]] }

theorem c5_witness :
    noObstacleState.obstacles = [] ∧
    ∀ p ∈ (update 0 (fun _ => 1 / 2) noObstacleState 0).1.particles, inBox p :=
  ⟨rfl, c5_positions_in_box_no_obstacles noObstacleState 0 (fun _ => 1 / 2) 0 rfl⟩

/-- A one-particle state with gravity switched off, the particle at
`(4.95, 0, 0)` at rest, and one obstacle centred at `(4.6, 0, 0)` with the
standard radius `0.5` — an obstacle straddling the bounding-box face. -/
def cs5 : SimState :=
  { baseState with
      params := { defaultParams with gravity := 0 }
      particles := [⟨4.95, 0, 0⟩]
      velocities := [Vec3.zero]
      accelerations := [Vec3.zero]
      densities := [0]
      pressures := [0]
      neighbors := [[]]
      obstacles := [{ position := ⟨4.6, 0, 0⟩, radius := 0.5 }] }

theorem cs5_neighbors_empty : neighborsOf cs5 0 = [] := by
  rw [List.eq_nil_iff_forall_not_mem]
  intro j hj
  unfold neighborsOf at hj
  simp only [List.mem_flatMap, List.mem_filter, decide_eq_true_eq] at hj
  obtain ⟨d, -, hjb, hj0, -⟩ := hj
  have hjr : j < cs5.particles.length := by
    have h := hjb
    unfold hashBucket at h
    rw [List.mem_filter] at h
    exact List.mem_range.mp h.1
  have hlen : cs5.particles.length = 1 := rfl
  rw [hlen] at hjr
  exact hj0 (by omega)

set_option maxHeartbeats 1000000 in
theorem cs5_substep1 (k : ℕ) :
    substepParticle cs5.params cs5.obstacles (fun _ => 1 / 2)
      (cs5.params.timeStep / (subSteps : ℝ)) k
      ((⟨4.95, 0, 0⟩ : Vec3), Vec3.zero, Vec3.zero) =
      (((⟨5.1, 0, 0⟩ : Vec3), Vec3.zero, Vec3.zero), k) := by
  norm_num [substepParticle, clampVelocity, handleBoundaryCollisions,
    handleGridCollision, handleObstacleCollisions, handleObstacleOne, Vec3.normalize,
    Vec3.reflect, Vec3.dot, cs5, baseState, defaultParams, subSteps, length_mk_x00,
    length_mk_000, length_mk_0y0, Vec3.zero, abs_of_nonneg, mathSign, bbMin, bbMax,
    Prod.ext_iff, Vec3.ext_iff]

set_option maxHeartbeats 1000000 in
theorem cs5_substep2 (k : ℕ) :
    substepParticle cs5.params cs5.obstacles (fun _ => 1 / 2)
      (cs5.params.timeStep / (subSteps : ℝ)) k
      ((⟨5.1, 0, 0⟩ : Vec3), Vec3.zero, Vec3.zero) =
      (((⟨5.1, 0, 0⟩ : Vec3), Vec3.zero, Vec3.zero), k) := by
  norm_num [substepParticle, clampVelocity, handleBoundaryCollisions,
    handleGridCollision, handleObstacleCollisions, handleObstacleOne, Vec3.normalize,
    Vec3.reflect, Vec3.dot, cs5, baseState, defaultParams, subSteps, length_mk_x00,
    length_mk_000, length_mk_0y0, Vec3.zero, abs_of_nonneg, mathSign, bbMin, bbMax,
    Prod.ext_iff, Vec3.ext_iff]

set_option maxHeartbeats 1000000 in
/-- C5 counterexample: obstacle collision response runs after the
boundary clamp and projects the particle onto the obstacle surface, which
can lie outside the box.  Starting `update` from `cs5`, both sub-steps
leave the particle at `(5.1, 0, 0)` — `0.1` beyond the `x = 5` face at
the end of the step, not within any small numeric epsilon of the box. -/
theorem c5_counterexample_obstacle_ejects :
    (update 0 (fun _ => 1 / 2) cs5 0).1.particles = [⟨5.1, 0, 0⟩] ∧
    ¬inBox (⟨5.1, 0, 0⟩ : Vec3) := by
  have hs3 : computeForces (computeDensityPressure (findNeighbors cs5)) =
      { cs5 with
        neighbors := [[]]
        densities := [densityOf (findNeighbors cs5) 0]
        pressures := [taitPressure cs5.params.gasConstant cs5.params.restDensity
          (densityOf (findNeighbors cs5) 0)]
        accelerations := [⟨0, -cs5.params.gravity, 0⟩] } := by
    simp [findNeighbors, computeDensityPressure, computeForces, cs5_neighbors_empty,
      Function.comp, show cs5.particles.length = 1 from rfl,
      show List.range 1 = [0] from rfl]
  have hus : updateSources 0 (fun _ => 1 / 2)
      (computeForces (computeDensityPressure (findNeighbors cs5))) 0 =
      (computeForces (computeDensityPressure (findNeighbors cs5)), 0) := by
    rw [hs3]
    rfl
  constructor
  · simp only [update, hus]
    rw [hs3]
    dsimp only
    rw [show cs5.particles = [(⟨4.95, 0, 0⟩ : Vec3)] from rfl,
        show cs5.velocities = [Vec3.zero] from rfl,
        show cs5.params.gravity = (0 : ℝ) from rfl]
    rw [show (Vec3.mk 0 (-(0 : ℝ)) 0) = Vec3.zero by ext <;> simp [Vec3.zero]]
    rw [show ([(⟨4.95, 0, 0⟩ : Vec3)].zip ([Vec3.zero].zip [Vec3.zero])) =
      [((⟨4.95, 0, 0⟩ : Vec3), Vec3.zero, Vec3.zero)] from rfl]
    simp only [integratePass]
    rw [cs5_substep1]
    dsimp only
    rw [cs5_substep2]
    dsimp only
    rfl
  · simp only [inBox, bbMax, bbMin]
    norm_num

end FluidSim
